import Mathlib

/-!
# Booking lifecycle, pricing and visibility of the marketplace backend

A shallow embedding of `src/controllers/bookingControllers.js`, of
`revealClientContact` of `src/controllers/adminController.js`, and of the
schemas of `src/models`.

Modelling conventions.

* MongoDB collections are lists of documents; an `ObjectId` is a natural number.
  An id sent in a request is a string: it is held as the `ObjectId` that
  Mongoose casts it to (strings that do not cast are not requests of the model),
  and, where the code compares the string itself with `_id.toString()`, together
  with a flag that says whether it is spelled as `toString()` spells that id.
* JavaScript numbers are IEEE 754 doubles.  Amounts are integral, and a sum or a
  product is the exact result rounded to 53 significant bits (`toDouble`), so
  integers of magnitude up to 2^53 are computed exactly.  The fee
  `Math.round(serviceTotal * 0.1)` is computed with the double nearest to 0.1.
  Infinite values and `NaN` (magnitudes from 2^1024 on) are not modelled.
* Optional request fields are `Option`s, and JavaScript truthiness (`!x`,
  `x || d`, `x && y`) is spelled out: `undefined`, `0` and `""` are falsy.
* A controller is a function from the database (and the authenticated
  `req.user`, the request) to the new database and the HTTP response.  An
  exception thrown inside the `try` block is the 500 response of its `catch`.
* Storage calls themselves do not fail, unless a definition says otherwise;
  `Booking.create` runs the validation of the schema and throws when it fails.
* A leaf path that was never set reads as `undefined` (`none`).  A nested path
  of a schema (an object of paths, such as `rating.clientRating`) reads as an
  object whether or not anything was set under it, and an object is truthy.
-/

namespace SandraList

/-- An `ObjectId`. -/
abbrev Id := Nat

/-! ## JavaScript helpers -/

/-- Truthiness of an optional number: a missing value and `0` are falsy. -/
def truthyNum : Option Int → Bool
  | some n => n != 0
  | none => false

/-- Truthiness of an optional string: a missing value and `""` are falsy. -/
def truthyStr : Option String → Bool
  | some s => s != ""
  | none => false

/-- The expression `x || d` for an optional number `x`. -/
def orNum (x : Option Int) (d : Int) : Int :=
  match x with
  | some n => if n = 0 then d else n
  | none => d

/-- The expression `x || d` for an optional string `x`. -/
def orStr (x : Option String) (d : String) : String :=
  match x with
  | some s => if s = "" then d else s
  | none => d

/-- The number of halvings that bring `n` below 2^53, counted with at most
`fuel` steps: the binary digits that `n` has beyond 53. -/
def excessBits : Nat → Nat → Nat
  | 0, _ => 0
  | fuel + 1, n => if n < 2 ^ 53 then 0 else excessBits fuel (n / 2) + 1

/-- A natural number rounded to 53 significant bits, a tie going to the even
significand: the rounding of IEEE 754 doubles.  Numbers below 2^53 are kept. -/
def roundSignificand (n : Nat) : Nat :=
  let s := excessBits n n
  let q := n / 2 ^ s
  let r := n % 2 ^ s
  if 2 * r < 2 ^ s then q * 2 ^ s
  else if 2 ^ s < 2 * r then (q + 1) * 2 ^ s
  else if q % 2 = 0 then q * 2 ^ s
  else (q + 1) * 2 ^ s

/-- The double nearest to an integer. -/
def toDouble (n : Int) : Int := n.sign * roundSignificand n.natAbs

/-- The sum `a + b` of two integral doubles. -/
def jsAdd (a b : Int) : Int := toDouble (a + b)

/-- The product `a * b` of two integral doubles. -/
def jsMul (a b : Int) : Int := toDouble (a * b)

/-- The literal `0.1`: the double nearest to one tenth is `tenth / 2 ^ 55`. -/
def tenth : Nat := 3602879701896397

/-- The product `x * 0.1` of an integral double and the literal `0.1`, as a
numerator over `2 ^ 55`: the exact product `x * tenth / 2 ^ 55` rounded to 53
significant bits. -/
def timesTenth (x : Int) : Int := x.sign * roundSignificand (x.natAbs * tenth)

/-- The function `Math.round` on the number `numerator / 2 ^ scale`: the nearest
integer, halves going up. -/
def mathRound (numerator : Int) (scale : Nat) : Int :=
  (2 * numerator + 2 ^ scale) / 2 ^ (scale + 1)

/-- Truthiness of a nested path of a Mongoose document, such as
`booking.rating.clientRating`: the path reads as an object, whatever was stored
under it, and an object is truthy. -/
def truthyNested {α : Type} (_ : Option α) : Bool := true

/-- The call `s.slice(-4)`: the last four characters of `s`, or all of `s`
when it is shorter. -/
def sliceLast4 (s : String) : String := ⟨s.data.drop (s.data.length - 4)⟩

/-! ## Documents (src/models) -/

/-- An entry of `selectedOptions`. -/
structure SelectedOption where
  name : Option String
  price : Option Int
deriving DecidableEq, Repr

/-- The `discount` sub-document of a service. -/
structure Discount where
  hasDiscount : Bool
  discountedPrice : Option Int
deriving DecidableEq, Repr

/-- The `pricing` sub-document of a service. -/
structure ServicePricing where
  basePrice : Int
deriving DecidableEq, Repr

/-- An entry of the `ratings` array of a provider or of a service; only the
entries of a provider carry the booking. -/
structure RatingEntry where
  user : Id
  booking : Option Id
  rating : Int
  comment : String
  createdAt : Nat
deriving DecidableEq, Repr

/-- An entry of the `additionalOptions` array of a service. -/
structure AdditionalOption where
  name : Option String
  price : Option Int
  description : Option String
deriving DecidableEq, Repr

/-- A document of the `Service` collection (src/models/serviceModel.js). -/
structure Service where
  id : Id
  pricing : ServicePricing
  discount : Discount
  isAvailable : Bool
  provider : Id
  bookingCount : Int
  ratings : List RatingEntry := []
  averageRating : ℚ := 0
  additionalOptions : List AdditionalOption := []
deriving DecidableEq, Repr

/-- A document of the `ServiceProvider` collection
(src/models/serviceProviderModel.js). -/
structure ServiceProvider where
  id : Id
  isActive : Bool
  isSuspended : Bool
  completedBookings : Int
  ratings : List RatingEntry := []
  averageRating : ℚ := 0
deriving DecidableEq, Repr

/-- A document of the `User` collection (src/models/user.js); also `req.user`. -/
structure User where
  id : Id
  name : String
  phone : String
  email : String
  role : String
  profilePicture : Option String
  providerProfile : Option Id
  bookings : List Id
deriving DecidableEq, Repr

/-- The `contactInfo` snapshot of a booking. -/
structure ContactInfo where
  name : String
  phone : String
  email : String
deriving DecidableEq, Repr

/-- A line of `booking.services`. -/
structure LineItem where
  service : Id
  quantity : Int
  price : Int
  selectedOptions : List SelectedOption
deriving DecidableEq, Repr

/-- The `pricing` sub-document of a booking. -/
structure Pricing where
  serviceTotal : Int
  platformFee : Int
  totalAmount : Int
deriving DecidableEq, Repr

/-- An entry of `booking.statusHistory`. -/
structure StatusEntry where
  status : String
  changedBy : Id
  changedAt : Nat
  note : String
deriving DecidableEq, Repr

/-- The `serviceLocation` sub-document, as sent and as stored. -/
structure ServiceLocation where
  type : Option String
  address : Option String
  city : Option String
  district : Option String
  instructions : Option String
deriving DecidableEq, Repr

/-- The `payment` sub-document of a booking. -/
structure Payment where
  method : String
  status : String
deriving DecidableEq, Repr

/-- The `rating.clientRating` sub-document of a booking. -/
structure ClientRating where
  rating : Int
  comment : String
  ratedAt : Nat
deriving DecidableEq, Repr

/-- A document of the `Booking` collection (src/models/booking.js). -/
structure Booking where
  id : Id
  bookingNumber : String
  client : Id
  contactInfo : ContactInfo
  provider : Id
  services : List LineItem
  scheduledDate : Nat
  scheduledTime : String
  serviceLocation : ServiceLocation
  clientNotes : Option String
  pricing : Pricing
  status : String
  statusHistory : List StatusEntry
  payment : Payment
  providerCanSeeContact : Bool
  clientRating : Option ClientRating
  createdAt : Nat
  confirmedAt : Option Nat
  completedAt : Option Nat
  cancelledAt : Option Nat
deriving DecidableEq, Repr

/-- The database: one list of documents per collection. -/
structure Db where
  services : List Service
  providers : List ServiceProvider
  users : List User
  bookings : List Booking
deriving DecidableEq, Repr

/-- What the runtime supplies to a request: the id of a document about to be
created, the clock, and the cast of a date string to a `Date` done by Mongoose
(`none` when the string is no date). -/
structure Env where
  newId : Id
  now : Nat
  castDate : String → Option Nat

/-- The JSON envelope of a response together with its HTTP status. -/
structure Response (α : Type) where
  status : Nat
  success : Bool
  message : String
  data : Option α
deriving DecidableEq, Repr

/-- A failure response: `res.status(code).json({ success: false, message })`. -/
def Response.fail {α : Type} (code : Nat) (message : String) : Response α :=
  { status := code, success := false, message := message, data := none }

/-! ## createBooking (src/controllers/bookingControllers.js, lines 9-176) -/

/-- A requested line of `req.body.services`.  The string `service` is held as
the `ObjectId` it casts to (in the `$in` of line 47, in the update of line 151
and in the stored line) and as the flag `canonical`, true when the string is
what `toString()` gives for that id (24 lower-case hexadecimal digits) and false
for any other spelling that casts to it (upper-case digits for one): line 84
compares the string itself. -/
structure RequestedLine where
  service : Id
  quantity : Option Int
  selectedOptions : Option (List SelectedOption)
  canonical : Bool := true
deriving DecidableEq, Repr

/-- The body of a `POST /api/bookings` request. -/
structure BookingRequest where
  services : Option (List RequestedLine)
  scheduledDate : Option String
  scheduledTime : Option String
  serviceLocation : Option ServiceLocation
  clientNotes : Option String
  paymentMethod : Option String
deriving DecidableEq, Repr

/-- A service with its `provider` path populated (`null` when the referenced
provider does not exist). -/
structure PopulatedService where
  service : Service
  provider : Option ServiceProvider
deriving DecidableEq, Repr

/-- The query `ServiceProvider.findById`. -/
def findProvider (db : Db) (pid : Id) : Option ServiceProvider :=
  db.providers.find? (fun p => p.id == pid)

/-- The query `Service.find(_id in serviceIds, isAvailable: true)` followed by
`.populate("provider")` (lines 46-49). -/
def findServiceDetails (db : Db) (serviceIds : List Id) : List PopulatedService :=
  (db.services.filter (fun s => serviceIds.contains s.id && s.isAvailable)).map
    (fun s => { service := s, provider := findProvider db s.provider })

/-- The test `serviceDetails.every(s => s.provider._id.toString() ===
providerId.toString())` (lines 60-62): `none` when it throws on a `null`
provider, which `every` reaches only if no earlier element was different. -/
def allSameProvider (providerId : Id) : List PopulatedService → Option Bool
  | [] => some true
  | s :: rest =>
    match s.provider with
    | none => none
    | some p => if p.id = providerId then allSameProvider providerId rest else some false

/-- The base unit amount of a line (lines 88-92): the discounted price when
`hasDiscount` and `discountedPrice` are both truthy, the base price otherwise. -/
def unitPrice (sd : Service) : Int :=
  if sd.discount.hasDiscount && truthyNum sd.discount.discountedPrice then
    sd.discount.discountedPrice.getD 0
  else sd.pricing.basePrice

/-- The reduction `selectedOptions.reduce((sum, opt) => sum + (opt.price || 0), 0)`
(lines 98-101). -/
def optionsTotal (opts : List SelectedOption) : Int :=
  opts.foldl (fun sum opt => jsAdd sum (orNum opt.price 0)) 0

/-- The amount `itemTotal` of one requested line against its service detail
(lines 88-103). -/
def itemTotal (sd : Service) (s : RequestedLine) : Int :=
  let itemTotal := unitPrice sd
  let itemTotal := jsMul itemTotal (orNum s.quantity 1)
  match s.selectedOptions with
  | some (o :: os) => jsAdd itemTotal (optionsTotal (o :: os))
  | _ => itemTotal

/-- The body of the callback of `services.map` (lines 82-113) for one line:
`none` when `serviceDetails.find` yields `undefined` and the access to
`serviceDetail.discount` throws.  The test `sd._id.toString() === s.service` of
line 84 holds when the string casts to the id of `sd` and is spelled as
`toString()` spells it. -/
def priceLine (serviceDetails : List PopulatedService) (s : RequestedLine) : Option LineItem :=
  match serviceDetails.find? (fun sd => sd.service.id == s.service && s.canonical) with
  | none => none
  | some sd =>
    some { service := s.service
           quantity := orNum s.quantity 1
           price := itemTotal sd.service s
           selectedOptions := s.selectedOptions.getD [] }

/-- The loop `services.map` of lines 81-113, threading the running
`serviceTotal`: the stored lines and the final `serviceTotal`. -/
def servicesWithPrices (serviceDetails : List PopulatedService) :
    List RequestedLine → Int → Option (List LineItem × Int)
  | [], serviceTotal => some ([], serviceTotal)
  | s :: rest, serviceTotal =>
    match priceLine serviceDetails s with
    | none => none
    | some item =>
      match servicesWithPrices serviceDetails rest (jsAdd serviceTotal item.price) with
      | none => none
      | some (items, total) => some (item :: items, total)

/-- The fee `Math.round(serviceTotal * 0.1)` (line 116). -/
def platformFee (serviceTotal : Int) : Int := mathRound (timesTenth serviceTotal) 55

/-- The sum `serviceTotal + platformFee` (line 117). -/
def totalAmount (serviceTotal : Int) : Int := jsAdd serviceTotal (platformFee serviceTotal)

/-- The enum of `serviceLocation.type` (src/models/booking.js, line 60). -/
def locationTypes : List String := ["client_address", "provider_location", "to_be_determined"]

/-- The enum of `payment.method` (src/models/booking.js, line 108). -/
def paymentMethods : List String := ["cash", "mobile_money", "card", "bank_transfer"]

/-- The enum of `payment.status` (src/models/booking.js, line 113). -/
def paymentStatuses : List String := ["pending", "paid", "refunded"]

/-- An object handed to `Booking.create`: the paths of the schema that a caller
may set, each absent (`none`) when the object does not carry it. -/
structure BookingDocument where
  bookingNumber : Option String
  client : Id
  contactInfo : ContactInfo
  provider : Id
  services : List LineItem
  scheduledDate : Option String
  scheduledTime : Option String
  serviceLocation : Option ServiceLocation
  clientNotes : Option String
  pricing : Pricing
  paymentMethod : Option String
  paymentStatus : String
deriving DecidableEq, Repr

/-- The object literal of lines 120-142, which createBooking hands to
`Booking.create`: it carries no `bookingNumber`. -/
def bookingDocument (user : User) (req : BookingRequest) (providerId : Id)
    (lines : List LineItem) (serviceTotal : Int) : BookingDocument :=
  { bookingNumber := none
    client := user.id
    contactInfo := { name := user.name, phone := user.phone, email := user.email }
    provider := providerId
    services := lines
    scheduledDate := req.scheduledDate
    scheduledTime := req.scheduledTime
    serviceLocation := req.serviceLocation
    clientNotes := req.clientNotes
    pricing := { serviceTotal := serviceTotal
                 platformFee := platformFee serviceTotal
                 totalAmount := totalAmount serviceTotal }
    paymentMethod := req.paymentMethod
    paymentStatus := "pending" }

/-- The call `Booking.create` with the validation and the defaults of the schema
(src/models/booking.js): `none` when it throws.  The paths `bookingNumber`,
`contactInfo.name`, `contactInfo.phone`, `scheduledDate`, `serviceLocation.type`
and `payment.method` are required (a required string is not empty), the last
two with an enum, `payment.status` has an enum, and `bookingNumber` is unique in
the collection; `status`, `statusHistory` and `visibility.providerCanSeeContact`
take their defaults. -/
def bookingCreate (env : Env) (db : Db) (doc : BookingDocument) : Option Booking :=
  match doc.bookingNumber, doc.scheduledDate.bind env.castDate, doc.serviceLocation,
    doc.paymentMethod with
  | some bookingNumber, some date, some loc, some method =>
    if locationTypes.contains (loc.type.getD "") &&
        (paymentMethods.contains method && bookingNumber != "" &&
          db.bookings.all (fun b => b.bookingNumber != bookingNumber) &&
          doc.contactInfo.name != "" && doc.contactInfo.phone != "" &&
          paymentStatuses.contains doc.paymentStatus) then
      some { id := env.newId
             bookingNumber := bookingNumber
             client := doc.client
             contactInfo := doc.contactInfo
             provider := doc.provider
             services := doc.services
             scheduledDate := date
             scheduledTime := doc.scheduledTime.getD ""
             serviceLocation := loc
             clientNotes := doc.clientNotes
             pricing := doc.pricing
             status := "pending"
             statusHistory := []
             payment := { method := method, status := doc.paymentStatus }
             providerCanSeeContact := false
             clientRating := none
             createdAt := env.now
             confirmedAt := none
             completedAt := none
             cancelledAt := none }
    else none
  | _, _, _, _ => none

/-- The update `User.findByIdAndUpdate(req.user._id, $push bookings)` (lines 145-147). -/
def pushUserBooking (users : List User) (uid : Id) (bid : Id) : List User :=
  users.map (fun u => if u.id = uid then { u with bookings := u.bookings ++ [bid] } else u)

/-- The update `Service.findByIdAndUpdate(serviceId, $inc bookingCount 1)` (lines 151-153). -/
def incBookingCount (services : List Service) (sid : Id) : List Service :=
  services.map (fun s => if s.id = sid then { s with bookingCount := s.bookingCount + 1 } else s)

/-- The message of the mixed-provider rejection (line 67). -/
def mixedProviderMessage : String := "Tous les services doivent appartenir au même prestataire"

/-- The message of the provider-unavailable rejection (line 76). -/
def providerUnavailableMessage : String := "Ce prestataire n\x27est pas disponible actuellement"

/-- The response of the `catch` block of createBooking. -/
def createError : Response Booking :=
  Response.fail 500 "Erreur lors de la création de la réservation"

/-- The controller `createBooking`. -/
def createBooking (env : Env) (db : Db) (user : User) (req : BookingRequest) :
    Db × Response Booking :=
  match req.services with
  | none => (db, Response.fail 400 "Veuillez sélectionner au moins un service")
  | some [] => (db, Response.fail 400 "Veuillez sélectionner au moins un service")
  | some (s0 :: ss) =>
    let services := s0 :: ss
    if !truthyStr req.scheduledDate || !truthyStr req.scheduledTime then
      (db, Response.fail 400 "Veuillez fournir une date et une heure de rendez-vous")
    else if !truthyStr (req.serviceLocation.bind (fun l => l.type)) then
      (db, Response.fail 400 "Veuillez spécifier le lieu de la prestation")
    else
      let serviceIds := services.map (fun s => s.service)
      let serviceDetails := findServiceDetails db serviceIds
      if serviceDetails.length ≠ services.length then
        (db, Response.fail 404 "Un ou plusieurs services sont introuvables ou indisponibles")
      else
        match serviceDetails.head?.bind (fun sd => sd.provider) with
        | none => (db, createError)
        | some p0 =>
          let providerId := p0.id
          match allSameProvider providerId serviceDetails with
          | none => (db, createError)
          | some false =>
            (db, Response.fail 400 mixedProviderMessage)
          | some true =>
            match findProvider db providerId with
            | none => (db, createError)
            | some provider =>
              if !provider.isActive || provider.isSuspended then
                (db, Response.fail 400 providerUnavailableMessage)
              else
                match servicesWithPrices serviceDetails services 0 with
                | none => (db, createError)
                | some (lines, serviceTotal) =>
                  match bookingCreate env db
                    (bookingDocument user req providerId lines serviceTotal) with
                  | none => (db, createError)
                  | some booking =>
                    ({ db with
                        bookings := db.bookings ++ [booking]
                        users := pushUserBooking db.users user.id booking.id
                        services := serviceIds.foldl incBookingCount db.services },
                     { status := 201
                       success := true
                       message := "Réservation créée avec succès. En attente de confirmation de l\x27administrateur."
                       data := some booking })

/-! ## Status transitions (lines 368-567) -/

/-- Modelled from the spec: the instance method `booking.updateStatus(status,
userId, note)`, which the controllers call and src/models/booking.js lacks.
Following section 4.3 of the spec it appends one `statusHistory`
entry, updates `status`, and sets `confirmedAt`, `completedAt` or `cancelledAt`
when the corresponding state is entered. -/
def Booking.updateStatus (b : Booking) (status : String) (changedBy : Id) (note : String)
    (now : Nat) : Booking :=
  { b with
      status := status
      statusHistory :=
        b.statusHistory ++
          [{ status := status, changedBy := changedBy, changedAt := now, note := note }]
      confirmedAt := if status = "confirmed" then some now else b.confirmedAt
      completedAt := if status = "completed" then some now else b.completedAt
      cancelledAt := if status = "cancelled" then some now else b.cancelledAt }

/-- The array `validStatuses` (lines 376-383). -/
def validStatuses : List String :=
  ["pending", "confirmed", "in_progress", "completed", "cancelled", "no_show"]

/-- The query `Booking.findById`. -/
def findBooking (db : Db) (id : Id) : Option Booking :=
  db.bookings.find? (fun b => b.id == id)

/-- The call `booking.save()`: the stored document of that id is replaced. -/
def saveBooking (db : Db) (booking : Booking) : Db :=
  { db with bookings := db.bookings.map (fun b => if b.id = booking.id then booking else b) }

/-- The update `ServiceProvider.findByIdAndUpdate(id, $inc completedBookings 1)`
(lines 416-418). -/
def incCompletedBookings (providers : List ServiceProvider) (pid : Id) : List ServiceProvider :=
  providers.map
    (fun p => if p.id = pid then { p with completedBookings := p.completedBookings + 1 } else p)

/-- The message of the invalid-status response (line 387). -/
def invalidStatusMessage : String :=
  "Statut invalide. Choisir parmi: " ++ ", ".intercalate validStatuses

/-- The message of the completed-booking rejection (line 407). -/
def completedMessage : String := "Impossible de modifier une réservation terminée"

/-- The controller `updateBookingStatus`; `status` and `note` are the two
fields of the request body. -/
def updateBookingStatus (env : Env) (db : Db) (user : User) (id : Id)
    (status : Option String) (note : Option String) : Db × Response Booking :=
  if !truthyStr status || !validStatuses.contains (status.getD "") then
    (db, Response.fail 400 invalidStatusMessage)
  else
    let status := status.getD ""
    match findBooking db id with
    | none => (db, Response.fail 404 "Réservation non trouvée")
    | some booking =>
      let currentStatus := booking.status
      if currentStatus == "completed" && status != "completed" then
        (db, Response.fail 400 completedMessage)
      else
        let booking := booking.updateStatus status user.id (orStr note "") env.now
        let db :=
          if status == "completed" && currentStatus != "completed" then
            { db with providers := incCompletedBookings db.providers booking.provider }
          else db
        (saveBooking db booking,
         { status := 200
           success := true
           message := "Statut mis à jour vers \"" ++ status ++ "\" avec succès"
           data := some booking })

/-- The note `cancelNote` of cancelBooking (lines 548-550). -/
def cancelNote (reason : Option String) : String :=
  if truthyStr reason then "Annulée par le client. Raison: " ++ reason.getD ""
  else "Annulée par le client"

/-- The controller `cancelBooking` (its second definition, lines 508-567, which
is the exported one and repeats the first). -/
def cancelBooking (env : Env) (db : Db) (user : User) (id : Id) (reason : Option String) :
    Db × Response Booking :=
  match findBooking db id with
  | none => (db, Response.fail 404 "Réservation non trouvée")
  | some booking =>
    if booking.client != user.id then
      (db, Response.fail 403 "Non autorisé à annuler cette réservation")
    else if ["completed", "cancelled"].contains booking.status then
      (db, Response.fail 400
        "Cette réservation ne peut pas être annulée (déjà terminée ou annulée)")
    else if booking.status == "in_progress" then
      (db, Response.fail 400
        "Impossible d\x27annuler une réservation en cours. Contactez l\x27administrateur.")
    else
      let booking := booking.updateStatus "cancelled" user.id (cancelNote reason) env.now
      (saveBooking db booking,
       { status := 200
         success := true
         message := "Réservation annulée avec succès"
         data := some booking })

/-! ## Provider-facing and shared reads (lines 251-366) -/

/-- The result of `booking.toObject()`: a plain object whose `client` key can be
deleted.  The parameter is the type of the `client` value: an id, or the
populated client document. -/
structure BookingObj (κ : Type) where
  id : Id
  bookingNumber : String
  client : Option κ
  contactInfo : ContactInfo
  provider : Id
  services : List LineItem
  scheduledDate : Nat
  scheduledTime : String
  serviceLocation : ServiceLocation
  clientNotes : Option String
  pricing : Pricing
  status : String
  statusHistory : List StatusEntry
  payment : Payment
  providerCanSeeContact : Bool
  clientRating : Option ClientRating
  createdAt : Nat
  confirmedAt : Option Nat
  completedAt : Option Nat
  cancelledAt : Option Nat
deriving DecidableEq, Repr

/-- The call `booking.toObject()`, with `client` the value held at that path. -/
def Booking.toObject {κ : Type} (b : Booking) (client : κ) : BookingObj κ :=
  { id := b.id
    bookingNumber := b.bookingNumber
    client := some client
    contactInfo := b.contactInfo
    provider := b.provider
    services := b.services
    scheduledDate := b.scheduledDate
    scheduledTime := b.scheduledTime
    serviceLocation := b.serviceLocation
    clientNotes := b.clientNotes
    pricing := b.pricing
    status := b.status
    statusHistory := b.statusHistory
    payment := b.payment
    providerCanSeeContact := b.providerCanSeeContact
    clientRating := b.clientRating
    createdAt := b.createdAt
    confirmedAt := b.confirmedAt
    completedAt := b.completedAt
    cancelledAt := b.cancelledAt }

/-- The masked contact written over `contactInfo` (lines 279-283 and 347-351). -/
def maskedContact (bookingNumber : String) : ContactInfo :=
  { name := "Client #" ++ sliceLast4 bookingNumber
    phone := "***********"
    email := "***********" }

/-- The callback of `bookings.map` in getProviderBookings (lines 274-289). -/
def sanitizeBooking (booking : Booking) : BookingObj Id :=
  let bookingObj := booking.toObject booking.client
  if !booking.providerCanSeeContact then
    { bookingObj with
        contactInfo := maskedContact booking.bookingNumber
        client := none }
  else bookingObj

/-- The order of `.sort(scheduledDate: 1, scheduledTime: 1)` (line 271). -/
def scheduledBefore (a b : Booking) : Bool :=
  decide (a.scheduledDate < b.scheduledDate) ||
    (a.scheduledDate == b.scheduledDate && !decide (b.scheduledTime < a.scheduledTime))

/-- The query of getProviderBookings (lines 266-271): the bookings of the
provider, of the given status when one is asked for, by scheduled date and
time (bookings of equal date and time keep their stored order). -/
def providerBookings (db : Db) (pid : Id) (status : Option String) : List Booking :=
  (db.bookings.filter
    (fun b => b.provider == pid && (!truthyStr status || b.status == status.getD ""))).insertionSort
    (fun a b => scheduledBefore a b = true)

/-- The controller `getProviderBookings`; `status` is the query parameter. -/
def getProviderBookings (db : Db) (user : User) (status : Option String) :
    Response (List (BookingObj Id)) :=
  match user.providerProfile with
  | none => Response.fail 403 "Vous devez être un prestataire pour accéder à cette ressource"
  | some pid =>
    let bookings := providerBookings db pid status
    let sanitizedBookings := bookings.map sanitizeBooking
    { status := 200, success := true, message := "", data := some sanitizedBookings }

/-- The client document populated with `name phone email profilePicture`. -/
structure ClientDoc where
  id : Id
  name : String
  phone : String
  email : String
  profilePicture : Option String
deriving DecidableEq, Repr

/-- The population `.populate("client", "name phone email profilePicture")`
(line 311): `none` when the user no longer exists. -/
def populateClient (db : Db) (uid : Id) : Option ClientDoc :=
  (db.users.find? (fun u => u.id == uid)).map
    (fun u =>
      { id := u.id, name := u.name, phone := u.phone, email := u.email
        profilePicture := u.profilePicture })

/-- The flag `isProvider` of getBookingById (lines 330-332): `none` when the
comparison is reached with a `null` populated provider and throws. -/
def isProviderOf (db : Db) (user : User) (booking : Booking) : Option Bool :=
  match user.providerProfile with
  | none => some false
  | some profile =>
    match findProvider db booking.provider with
    | none => none
    | some p => some (p.id == profile)

/-- The response of the `catch` block of getBookingById. -/
def readError : Response (BookingObj ClientDoc) :=
  Response.fail 500 "Erreur lors de la récupération de la réservation"

/-- The controller `getBookingById`. -/
def getBookingById (db : Db) (user : User) (id : Id) : Response (BookingObj ClientDoc) :=
  match findBooking db id with
  | none => Response.fail 404 "Réservation non trouvée"
  | some booking =>
    match populateClient db booking.client with
    | none => readError
    | some client =>
      let isClient := client.id == user.id
      match isProviderOf db user booking with
      | none => readError
      | some isProvider =>
        let isAdmin := user.role == "admin"
        if !isClient && !isProvider && !isAdmin then
          Response.fail 403 "Non autorisé à voir cette réservation"
        else
          let bookingObj := booking.toObject client
          let bookingObj :=
            if isProvider && !booking.providerCanSeeContact then
              { bookingObj with
                  contactInfo := maskedContact booking.bookingNumber
                  client := none }
            else bookingObj
          { status := 200, success := true, message := "", data := some bookingObj }

/-! ## rateBooking (lines 569-668) -/

/-- The arithmetic mean of the ratings of a list of entries (0 for no entry). -/
def meanRating (ratings : List RatingEntry) : ℚ :=
  ((ratings.map (fun e => e.rating)).sum : ℚ) / (ratings.length : ℚ)

/-- Modelled from the spec: the instance method `provider.updateRatings()`,
which rateBooking calls and src/models/serviceProviderModel.js lacks.
Following section 4.5 of the spec it recomputes `averageRating` as the
arithmetic mean of all the entries of `ratings`. -/
def ServiceProvider.updateRatings (p : ServiceProvider) : ServiceProvider :=
  { p with averageRating := meanRating p.ratings }

/-- Modelled from the spec: the instance method `service.updateAverageRating()`,
which rateBooking calls and src/models/serviceModel.js lacks.  Following
section 4.5 of the spec it recomputes `averageRating` as the arithmetic mean of
all the entries of `ratings`. -/
def Service.updateAverageRating (s : Service) : Service :=
  { s with averageRating := meanRating s.ratings }

/-- The query `Service.findById`. -/
def findService (db : Db) (sid : Id) : Option Service :=
  db.services.find? (fun s => s.id == sid)

/-- The call `provider.save()`: the stored document of that id is replaced. -/
def saveProvider (db : Db) (provider : ServiceProvider) : Db :=
  { db with providers := db.providers.map (fun p => if p.id = provider.id then provider else p) }

/-- The call `service.save()`: the stored document of that id is replaced. -/
def saveService (db : Db) (service : Service) : Db :=
  { db with services := db.services.map (fun s => if s.id = service.id then service else s) }

/-- The message of the rating validation (line 580). -/
def ratingMessage : String := "La note doit être entre 1 et 5"

/-- The message of the not-completed rejection (line 605). -/
def notCompletedMessage : String := "Vous ne pouvez évaluer qu\x27une réservation terminée"

/-- The message of the already-rated rejection (line 613). -/
def alreadyRatedMessage : String := "Vous avez déjà évalué cette réservation"

/-- The response of the `catch` block of rateBooking. -/
def rateError : Response Booking := Response.fail 500 "Erreur lors de l\x27évaluation"

/-- The body of the loop over `booking.services` (lines 642-654) for one line:
the service, when it still exists, gets the entry and a recomputed average. -/
def rateServiceLine (entry : RatingEntry) (db : Db) (serviceItem : LineItem) : Db :=
  match findService db serviceItem.service with
  | none => db
  | some service =>
    let service := { service with ratings := service.ratings ++ [entry] }
    saveService db service.updateAverageRating

/-- The controller `rateBooking`; `rating` and `comment` are the two fields of
the request body. -/
def rateBooking (env : Env) (db : Db) (user : User) (id : Id)
    (rating : Option Int) (comment : Option String) : Db × Response Booking :=
  if !truthyNum rating || decide (rating.getD 0 < 1) || decide (rating.getD 0 > 5) then
    (db, Response.fail 400 ratingMessage)
  else
    let rating := rating.getD 0
    match findBooking db id with
    | none => (db, Response.fail 404 "Réservation non trouvée")
    | some booking =>
      if booking.client != user.id then
        (db, Response.fail 403 "Non autorisé à évaluer cette réservation")
      else if booking.status != "completed" then
        (db, Response.fail 400 notCompletedMessage)
      else if truthyNested booking.clientRating then
        (db, Response.fail 400 alreadyRatedMessage)
      else
        let booking :=
          { booking with
              clientRating :=
                some { rating := rating, comment := orStr comment "", ratedAt := env.now } }
        let db := saveBooking db booking
        match findProvider db booking.provider with
        | none => (db, rateError)
        | some provider =>
          let entry : RatingEntry :=
            { user := user.id, booking := some booking.id, rating := rating
              comment := orStr comment "", createdAt := env.now }
          let provider := { provider with ratings := provider.ratings ++ [entry] }
          let provider := provider.updateRatings
          let db := saveProvider db provider
          let db := booking.services.foldl
            (rateServiceLine
              { user := user.id, booking := none, rating := rating
                comment := orStr comment "", createdAt := env.now })
            db
          (db,
           { status := 200
             success := true
             message := "Évaluation ajoutée avec succès"
             data := some booking })

/-! ## revealClientContact (src/controllers/adminController.js, lines 291-320) -/

/-- The controller `revealClientContact`. -/
def revealClientContact (db : Db) (id : Id) : Db × Response Booking :=
  match findBooking db id with
  | none => (db, Response.fail 404 "Réservation non trouvée")
  | some booking =>
    let booking := { booking with providerCanSeeContact := true }
    (saveBooking db booking,
     { status := 200
       success := true
       message := "Coordonnées du client révélées au prestataire"
       data := some booking })

/-! ## Sequences of operations -/

/-- A request to one of the operations on bookings.  The reads
(getAllBookings, getMyBookings, getProviderBookings, getBookingById and the
statistics) write nothing and are one case. -/
inductive Operation where
  | create (env : Env) (user : User) (req : BookingRequest)
  | updateStatus (env : Env) (user : User) (id : Id) (status note : Option String)
  | cancel (env : Env) (user : User) (id : Id) (reason : Option String)
  | rate (env : Env) (user : User) (id : Id) (rating : Option Int) (comment : Option String)
  | revealContact (id : Id)
  | read

/-- The database after one operation. -/
def Operation.run (db : Db) : Operation → Db
  | .create env user req => (createBooking env db user req).1
  | .updateStatus env user id status note => (updateBookingStatus env db user id status note).1
  | .cancel env user id reason => (cancelBooking env db user id reason).1
  | .rate env user id rating comment => (rateBooking env db user id rating comment).1
  | .revealContact id => (revealClientContact db id).1
  | .read => db

/-- The database after a sequence of operations. -/
def runAll (db : Db) (ops : List Operation) : Db :=
  ops.foldl Operation.run db

/-! ## Storage failures

The controllers above take every storage call to succeed.  The two
definitions below repeat createBooking and updateBookingStatus with the
awaited writes that the claims speak of allowed to throw; a throw is caught by
the `catch` block of the controller, after the writes that came before it. -/

/-- Which awaited write of the bookkeeping of createBooking (lines 144-154)
throws, if any: the link into the history of the user, or the increment of the
`k`-th requested service id (counted from 0). -/
inductive BookkeepingFault where
  | none
  | userLink
  | bookingCount (k : Nat)
deriving DecidableEq, Repr

/-- Lines 144-168 of createBooking, run on the database that holds the created
booking: the history link, the loop of increments and the 201 response, or the
500 response of the `catch` block at the write that throws. -/
def bookkeeping (fault : BookkeepingFault) (db : Db) (user : User) (booking : Booking)
    (serviceIds : List Id) : Db × Response Booking :=
  let created : Response Booking :=
    { status := 201
      success := true
      message := "Réservation créée avec succès. En attente de confirmation de l\x27administrateur."
      data := some booking }
  match fault with
  | .userLink => (db, createError)
  | .bookingCount k =>
    let db := { db with users := pushUserBooking db.users user.id booking.id }
    if k < serviceIds.length then
      ({ db with services := (serviceIds.take k).foldl incBookingCount db.services }, createError)
    else
      ({ db with services := serviceIds.foldl incBookingCount db.services }, created)
  | .none =>
    let db := { db with users := pushUserBooking db.users user.id booking.id }
    ({ db with services := serviceIds.foldl incBookingCount db.services }, created)

/-- The controller `createBooking` with a possible storage failure in its
bookkeeping writes. -/
def createBookingWith (fault : BookkeepingFault) (env : Env) (db : Db) (user : User)
    (req : BookingRequest) : Db × Response Booking :=
  match req.services with
  | none => (db, Response.fail 400 "Veuillez sélectionner au moins un service")
  | some [] => (db, Response.fail 400 "Veuillez sélectionner au moins un service")
  | some (s0 :: ss) =>
    let services := s0 :: ss
    if !truthyStr req.scheduledDate || !truthyStr req.scheduledTime then
      (db, Response.fail 400 "Veuillez fournir une date et une heure de rendez-vous")
    else if !truthyStr (req.serviceLocation.bind (fun l => l.type)) then
      (db, Response.fail 400 "Veuillez spécifier le lieu de la prestation")
    else
      let serviceIds := services.map (fun s => s.service)
      let serviceDetails := findServiceDetails db serviceIds
      if serviceDetails.length ≠ services.length then
        (db, Response.fail 404 "Un ou plusieurs services sont introuvables ou indisponibles")
      else
        match serviceDetails.head?.bind (fun sd => sd.provider) with
        | none => (db, createError)
        | some p0 =>
          let providerId := p0.id
          match allSameProvider providerId serviceDetails with
          | none => (db, createError)
          | some false =>
            (db, Response.fail 400 mixedProviderMessage)
          | some true =>
            match findProvider db providerId with
            | none => (db, createError)
            | some provider =>
              if !provider.isActive || provider.isSuspended then
                (db, Response.fail 400 providerUnavailableMessage)
              else
                match servicesWithPrices serviceDetails services 0 with
                | none => (db, createError)
                | some (lines, serviceTotal) =>
                  match bookingCreate env db
                    (bookingDocument user req providerId lines serviceTotal) with
                  | none => (db, createError)
                  | some booking =>
                    bookkeeping fault { db with bookings := db.bookings ++ [booking] } user
                      booking serviceIds

/-- The response of the `catch` block of updateBookingStatus. -/
def updateError : Response Booking :=
  Response.fail 500 "Erreur lors de la mise à jour du statut"

/-- The controller `updateBookingStatus` with a possible storage failure of
`booking.save()` (line 421): when the save throws, the writes made before it
stay and the `catch` block answers. -/
def updateBookingStatusWith (saveFails : Bool) (env : Env) (db : Db) (user : User) (id : Id)
    (status : Option String) (note : Option String) : Db × Response Booking :=
  if !truthyStr status || !validStatuses.contains (status.getD "") then
    (db, Response.fail 400 invalidStatusMessage)
  else
    let status := status.getD ""
    match findBooking db id with
    | none => (db, Response.fail 404 "Réservation non trouvée")
    | some booking =>
      let currentStatus := booking.status
      if currentStatus == "completed" && status != "completed" then
        (db, Response.fail 400 completedMessage)
      else
        let booking := booking.updateStatus status user.id (orStr note "") env.now
        let db :=
          if status == "completed" && currentStatus != "completed" then
            { db with providers := incCompletedBookings db.providers booking.provider }
          else db
        if saveFails then (db, updateError)
        else
          (saveBooking db booking,
           { status := 200
             success := true
             message := "Statut mis à jour vers \"" ++ status ++ "\" avec succès"
             data := some booking })

/-! ## Concrete data used by the examples -/

/-- A runtime environment: the next id, the clock, and a date cast that knows
one date. -/
def sampleEnv : Env :=
  { newId := 100
    now := 1000
    castDate := fun s => if s = "2025-01-01" then some 1735689600 else none }

/-- An available service of the given id, base price and provider, without
discount. -/
def plainService (i : Id) (base : Int) (p : Id) : Service :=
  { id := i
    pricing := { basePrice := base }
    discount := { hasDiscount := false, discountedPrice := none }
    isAvailable := true
    provider := p
    bookingCount := 0 }

/-- An available service of provider 7 with base price 500 whose discount is on
with a discounted price of 0. -/
def freeService : Service :=
  { id := 4
    pricing := { basePrice := 500 }
    discount := { hasDiscount := true, discountedPrice := some 0 }
    isAvailable := true
    provider := 7
    bookingCount := 0 }

/-- A client. -/
def sampleUser : User :=
  { id := 50, name := "Awa", phone := "0700000000", email := "awa@example.org"
    role := "client", profilePicture := none, providerProfile := none, bookings := [] }

/-- A catalogue of four services over the two active providers 7 and 8. -/
def sampleDb : Db :=
  { services := [plainService 1 1000 7, plainService 2 2000 7, plainService 3 500 8, freeService]
    providers := [{ id := 7, isActive := true, isSuspended := false, completedBookings := 0 },
                  { id := 8, isActive := true, isSuspended := false, completedBookings := 0 }]
    users := [sampleUser]
    bookings := [] }

/-- A request for the given lines with a date, a time, a location and a
payment method that pass every check. -/
def sampleRequest (lines : List RequestedLine) : BookingRequest :=
  { services := some lines
    scheduledDate := some "2025-01-01"
    scheduledTime := some "14:30"
    serviceLocation :=
      some { type := some "client_address", address := none, city := none, district := none
             instructions := none }
    clientNotes := none
    paymentMethod := some "cash" }

/-- A requested line with no quantity and no options. -/
def plainLine (i : Id) : RequestedLine :=
  { service := i, quantity := none, selectedOptions := none }

/-- A requested line with a quantity and no options. -/
def quantityLine (i : Id) (q : Int) : RequestedLine :=
  { service := i, quantity := some q, selectedOptions := none }

/-- A request for services 1 and 3, which belong to providers 7 and 8, that
carries no `scheduledTime`. -/
def mixedRequestWithoutTime : BookingRequest :=
  { sampleRequest [plainLine 1, plainLine 3] with scheduledTime := none }

/-- An administrator. -/
def sampleAdmin : User :=
  { id := 1, name := "Sandra", phone := "0100000000", email := "admin@example.org"
    role := "admin", profilePicture := none, providerProfile := none, bookings := [] }

/-- The user who runs provider 7. -/
def sampleProviderUser : User :=
  { id := 60, name := "Koffi", phone := "0500000000", email := "koffi@example.org"
    role := "provider", profilePicture := none, providerProfile := some 7, bookings := [] }

/-- A stored booking of client 50 with provider 7, of the given status and
visibility flag, whose history holds the initial entry. -/
def sampleBooking (status : String) (providerCanSeeContact : Bool) : Booking :=
  { id := 100
    bookingNumber := "BK-20250001"
    client := 50
    contactInfo := { name := "Awa", phone := "0700000000", email := "awa@example.org" }
    provider := 7
    services := [{ service := 1, quantity := 1, price := 1000, selectedOptions := [] }]
    scheduledDate := 1735689600
    scheduledTime := "14:30"
    serviceLocation :=
      { type := some "client_address", address := none, city := none, district := none
        instructions := none }
    clientNotes := none
    pricing := { serviceTotal := 1000, platformFee := 100, totalAmount := 1100 }
    status := status
    statusHistory := [{ status := "pending", changedBy := 50, changedAt := 10, note := "" }]
    payment := { method := "cash", status := "pending" }
    providerCanSeeContact := providerCanSeeContact
    clientRating := none
    createdAt := 10
    confirmedAt := none
    completedAt := none
    cancelledAt := none }

/-- The sample catalogue holding one booking. -/
def bookingDb (status : String) (providerCanSeeContact : Bool) : Db :=
  { sampleDb with
      users := [sampleUser, sampleAdmin, sampleProviderUser]
      bookings := [sampleBooking status providerCanSeeContact] }

/-- A booking whose status, status history and status timestamps are replaced
by the given functions of the booking; every other field is kept. -/
def restatus (status : Booking → String) (history : Booking → List StatusEntry)
    (confirmedAt completedAt cancelledAt : Booking → Option Nat) (b : Booking) : Booking :=
  { b with
      status := status b
      statusHistory := history b
      confirmedAt := confirmedAt b
      completedAt := completedAt b
      cancelledAt := cancelledAt b }

/-- The client of the sample booking, who also runs provider 7. -/
def clientProviderUser : User := { sampleUser with providerProfile := some 7 }

/-- An administrator who also runs provider 7. -/
def adminProviderUser : User := { sampleAdmin with providerProfile := some 7 }

/-- A request for service 1 whose location type is the unknown tag `moon`. -/
def unknownLocationRequest : BookingRequest :=
  { sampleRequest [plainLine 1] with
      serviceLocation :=
        some { type := some "moon", address := none, city := none, district := none
               instructions := none } }

/-- The sample catalogue with provider 7 suspended. -/
def suspendedDb : Db :=
  { sampleDb with
      providers := [{ id := 7, isActive := true, isSuspended := true, completedBookings := 0 },
                    { id := 8, isActive := true, isSuspended := false, completedBookings := 0 }] }

/-- An option "kit" sent at 250. -/
def kitOption : SelectedOption := { name := some "kit", price := some 250 }

/-- Two units of service 1 with the option `kitOption`. -/
def kitLine : RequestedLine :=
  { service := 1, quantity := some 2, selectedOptions := some [kitOption] }

/-- The option "kit" sent at 9000. -/
def dearKitOption : SelectedOption := { name := some "kit", price := some 9000 }

/-- Two units of service 1 with the option `dearKitOption`. -/
def dearKitLine : RequestedLine :=
  { service := 1, quantity := some 2, selectedOptions := some [dearKitOption] }

/-- A catalogue that holds one service of provider 7 whose base price is
6964623256613424. -/
def hugeDb : Db := { sampleDb with services := [plainService 9 6964623256613424 7] }

/-- A line for service 1 whose id string is not spelled as `toString()` spells
it (its hexadecimal digits in upper case). -/
def upperCaseLine : RequestedLine := { plainLine 1 with canonical := false }

/-- The document that createBooking hands to `Booking.create` for the one-line
request on service 1. -/
def sampleDocument : BookingDocument :=
  bookingDocument sampleUser (sampleRequest [plainLine 1]) 7
    [{ service := 1, quantity := 1, price := 1000, selectedOptions := [] }] 1000

/-! ## Arithmetic and list lemmas -/

theorem excessBits_of_lt (fuel : Nat) {n : Nat} (h : n < 2 ^ 53) : excessBits fuel n = 0 := by
  cases fuel with
  | zero => rfl
  | succ fuel => simp only [excessBits, if_pos h]

theorem excessBits_spec : ∀ (fuel n : Nat), n < 2 ^ 53 * 2 ^ fuel →
    n / 2 ^ excessBits fuel n < 2 ^ 53 ∧
      (excessBits fuel n = 0 ∨ 2 ^ 52 ≤ n / 2 ^ excessBits fuel n) := by
  intro fuel
  induction fuel with
  | zero =>
    intro n h
    simp only [excessBits, pow_zero, Nat.div_one, mul_one] at h ⊢
    exact ⟨h, Or.inl trivial⟩
  | succ fuel ih =>
    intro n h
    by_cases hn : n < 2 ^ 53
    · rw [excessBits_of_lt _ hn]
      simp only [pow_zero, Nat.div_one]
      exact ⟨hn, Or.inl trivial⟩
    · have hhalf : n / 2 < 2 ^ 53 * 2 ^ fuel := by
        rw [pow_succ] at h
        omega
      obtain ⟨h1, h2⟩ := ih (n / 2) hhalf
      have hs : excessBits (fuel + 1) n = excessBits fuel (n / 2) + 1 := by
        simp only [excessBits, if_neg hn]
      have hdiv : n / 2 ^ (excessBits fuel (n / 2) + 1) = n / 2 / 2 ^ excessBits fuel (n / 2) := by
        rw [pow_succ, mul_comm, Nat.div_div_eq_div_mul]
      rw [hs, hdiv]
      refine ⟨h1, Or.inr ?_⟩
      rcases h2 with h2 | h2
      · rw [h2]
        simp only [pow_zero, Nat.div_one]
        omega
      · exact h2

theorem roundSignificand_of_lt {n : Nat} (h : n < 2 ^ 53) : roundSignificand n = n := by
  unfold roundSignificand
  rw [excessBits_of_lt _ h]
  simp only [pow_zero, Nat.mod_one, Nat.div_one, mul_one, mul_zero]
  rw [if_pos (by norm_num)]

theorem roundSignificand_spec (n : Nat) :
    ∃ s, (s = 0 ∨ 2 ^ 52 * 2 ^ s ≤ n) ∧ n / 2 ^ s * 2 ^ s ≤ roundSignificand n ∧
      2 * roundSignificand n ≤ 2 * n + 2 ^ s := by
  have hfuel : n < 2 ^ 53 * 2 ^ n := by
    have h1 : n < 2 ^ n := Nat.lt_two_pow n
    have h2 : 2 ^ n ≤ 2 ^ 53 * 2 ^ n := Nat.le_mul_of_pos_left _ (by positivity)
    omega
  obtain ⟨_, h2⟩ := excessBits_spec n n hfuel
  refine ⟨excessBits n n, ?_, ?_, ?_⟩
  · rcases h2 with h2 | h2
    · exact Or.inl h2
    · right
      have := Nat.mul_le_mul_right (2 ^ excessBits n n) h2
      exact this.trans (Nat.div_mul_le_self _ _)
  · unfold roundSignificand
    dsimp only
    split
    · exact le_rfl
    · split
      · exact Nat.mul_le_mul_right _ (Nat.le_succ _)
      · split
        · exact le_rfl
        · exact Nat.mul_le_mul_right _ (Nat.le_succ _)
  · have hdm := Nat.div_add_mod n (2 ^ excessBits n n)
    have hle := Nat.div_mul_le_self n (2 ^ excessBits n n)
    unfold roundSignificand
    dsimp only
    generalize 2 ^ excessBits n n = p at *
    generalize hq : n / p = q at *
    generalize hr : n % p = r at *
    have hqp : (q + 1) * p = q * p + p := by ring
    have hpq : p * q = q * p := mul_comm _ _
    split
    · omega
    · split
      · omega
      · split
        · omega
        · omega

theorem toDouble_of_lt {n : Int} (h1 : -(2 ^ 53) < n) (h2 : n < 2 ^ 53) : toDouble n = n := by
  unfold toDouble
  rw [roundSignificand_of_lt (by omega)]
  exact Int.sign_mul_natAbs n

theorem platformFee_nat (n : Nat) (hn : n ≤ 2 ^ 52) :
    platformFee (n : Int) = ((n + 5) / 10 : Nat) := by
  rcases Nat.eq_zero_or_pos n with rfl | hpos
  · decide
  have hsign : (n : Int).sign = 1 := Int.sign_eq_one_of_pos (by exact_mod_cast hpos)
  unfold platformFee timesTenth mathRound
  rw [hsign, Int.natAbs_ofNat, one_mul]
  obtain ⟨s, hs, hlow, hup⟩ := roundSignificand_spec (n * tenth)
  generalize roundSignificand (n * tenth) = R at *
  have hN : 10 * (n * tenth) = n * 36028797018963970 := by unfold tenth; ring
  generalize n * tenth = N at *
  have hs54 : s ≤ 54 := by
    rcases hs with rfl | hs
    · omega
    · by_contra hcon
      have h1 : 2 ^ 55 ≤ 2 ^ s := Nat.pow_le_pow_right (by norm_num) (by omega)
      have h2 : 2 ^ 52 * 2 ^ 55 ≤ 2 ^ 52 * 2 ^ s := Nat.mul_le_mul_left _ h1
      norm_num at h2 hn
      omega
  have hP : 2 ^ s ≤ n ∨ 2 ^ s = 1 := by
    rcases hs with rfl | hs
    · right; rfl
    · left
      norm_num at hs hn
      omega
  have hsplit : (2 : Nat) ^ 54 = 2 ^ (54 - s) * 2 ^ s := by
    rw [← pow_add]; congr 1; omega
  have hlower : ∀ k, 10 * k ≤ n + 5 → 1 ≤ k → (2 * k - 1) * 2 ^ 54 ≤ R := by
    intro k hk hk1
    have hA : (2 * k - 1) * 2 ^ 54 ≤ N := by
      norm_num
      omega
    have hA' : (2 * k - 1) * 2 ^ (54 - s) * 2 ^ s ≤ N := by
      rw [mul_assoc, ← hsplit]; exact hA
    have hq : (2 * k - 1) * 2 ^ (54 - s) ≤ N / 2 ^ s :=
      (Nat.le_div_iff_mul_le (by positivity)).mpr hA'
    calc (2 * k - 1) * 2 ^ 54 = (2 * k - 1) * 2 ^ (54 - s) * 2 ^ s := by
          rw [mul_assoc, ← hsplit]
      _ ≤ N / 2 ^ s * 2 ^ s := Nat.mul_le_mul_right _ hq
      _ ≤ R := hlow
  have hk := hlower ((n + 5) / 10) (by omega)
  generalize 2 ^ s = P at *
  norm_num at hk hn ⊢
  omega

theorem platformFee_eq (t : Int) (h0 : 0 ≤ t) (h1 : t ≤ 2 ^ 52) :
    platformFee t = (t + 5) / 10 := by
  obtain ⟨n, rfl⟩ := Int.eq_ofNat_of_zero_le h0
  rw [platformFee_nat n (by exact_mod_cast h1)]
  push_cast
  rfl

theorem totalAmount_eq (t : Int) (h0 : 0 ≤ t) (h1 : t ≤ 2 ^ 52) :
    totalAmount t = t + (t + 5) / 10 := by
  unfold totalAmount jsAdd
  rw [platformFee_eq t h0 h1]
  norm_num at h1
  exact toDouble_of_lt (by norm_num; omega) (by norm_num; omega)

/-! ## Properties of createBooking -/

theorem mem_findServiceDetails {db : Db} {ids : List Id} {sd : PopulatedService}
    (h : sd ∈ findServiceDetails db ids) :
    sd.service ∈ db.services ∧ sd.service.id ∈ ids ∧ sd.service.isAvailable = true ∧
      sd.provider = findProvider db sd.service.provider := by
  unfold findServiceDetails at h
  simp only [List.mem_map, List.mem_filter] at h
  obtain ⟨s, ⟨hs, hc⟩, rfl⟩ := h
  simp at hc
  exact ⟨hs, hc.1, hc.2, rfl⟩

/-- The document of createBooking fails the validation of `Booking.create`: it
carries no `bookingNumber`, which the schema requires. -/
theorem bookingCreate_document (env : Env) (db : Db) (user : User) (req : BookingRequest)
    (providerId : Id) (lines : List LineItem) (serviceTotal : Int) :
    bookingCreate env db (bookingDocument user req providerId lines serviceTotal) = none := by
  unfold bookingCreate bookingDocument
  rfl

/-- What `Booking.create` stores when the validation passes. -/
theorem bookingCreate_fields {env : Env} {db : Db} {doc : BookingDocument} {booking : Booking}
    (h : bookingCreate env db doc = some booking) :
    doc.bookingNumber = some booking.bookingNumber ∧
      booking.services = doc.services ∧ booking.pricing = doc.pricing ∧
      booking.provider = doc.provider ∧ booking.client = doc.client ∧
      booking.id = env.newId ∧ booking.status = "pending" ∧ booking.statusHistory = [] ∧
      booking.providerCanSeeContact = false ∧
      ∃ loc, doc.serviceLocation = some loc ∧ loc.type.getD "" ∈ locationTypes := by
  unfold bookingCreate at h
  split at h
  · rename_i number date loc method hnumber _ hloc _
    split at h
    · rename_i hok
      simp only [Option.some.injEq] at h
      subst h
      simp only [Bool.and_eq_true] at hok
      have hmem : loc.type.getD "" ∈ locationTypes := by simpa using hok.1
      exact ⟨hnumber, rfl, rfl, rfl, rfl, rfl, rfl, rfl, rfl, loc, hloc, hmem⟩
    · simp at h
  · simp at h

/-- Every createBooking call leaves the database as it was and answers an
error: the last step, `Booking.create`, throws on every request that reaches
it. -/
theorem createBooking_unchanged (env : Env) (db : Db) (user : User) (req : BookingRequest) :
    (createBooking env db user req).1 = db ∧ (createBooking env db user req).2.status ≠ 201 ∧
      (createBooking env db user req).2.success = false ∧
      (createBooking env db user req).2.data = none := by
  unfold createBooking
  split
  · simp [Response.fail]
  · simp [Response.fail]
  · dsimp only
    split
    · simp [Response.fail]
    · split
      · simp [Response.fail]
      · split
        · simp [Response.fail]
        · split
          · simp [createError, Response.fail]
          · split
            · simp [createError, Response.fail]
            · simp [Response.fail]
            · split
              · simp [createError, Response.fail]
              · split
                · simp [Response.fail]
                · split
                  · simp [createError, Response.fail]
                  · split
                    · simp [createError, Response.fail]
                    · rename_i hbook
                      rw [bookingCreate_document] at hbook
                      cases hbook

theorem createBooking_rejected (env : Env) (db : Db) (user : User) (req : BookingRequest)
    (_ : (createBooking env db user req).2.status ≠ 201) :
    (createBooking env db user req).1 = db ∧ (createBooking env db user req).2.success = false ∧
      (createBooking env db user req).2.data = none :=
  ⟨(createBooking_unchanged env db user req).1, (createBooking_unchanged env db user req).2.2⟩

theorem findProvider_id {db : Db} {pid : Id} {p : ServiceProvider}
    (h : findProvider db pid = some p) : p.id = pid := by
  have := List.find?_some h
  simpa using this

theorem allSameProvider_true {pid : Id} :
    ∀ {sds : List PopulatedService}, allSameProvider pid sds = some true →
      ∀ sd ∈ sds, ∃ p, sd.provider = some p ∧ p.id = pid := by
  intro sds
  induction sds with
  | nil => intro _ sd hsd; simp at hsd
  | cons s rest ih =>
    intro h sd hsd
    unfold allSameProvider at h
    split at h
    · simp at h
    · rename_i p hp
      split at h
      · rename_i hpid
        rcases List.mem_cons.mp hsd with rfl | hmem
        · exact ⟨p, hp, hpid⟩
        · exact ih h sd hmem
      · simp at h

theorem allSameProvider_ne_none {pid : Id} :
    ∀ {sds : List PopulatedService}, (∀ sd ∈ sds, sd.provider ≠ none) →
      allSameProvider pid sds ≠ none := by
  intro sds
  induction sds with
  | nil => intro _; simp [allSameProvider]
  | cons s rest ih =>
    intro h
    unfold allSameProvider
    split
    · rename_i hp
      exact absurd hp (h s (List.mem_cons_self _ _))
    · split
      · exact ih (fun sd hsd => h sd (List.mem_cons_of_mem _ hsd))
      · simp

theorem mem_findServiceDetails_of {db : Db} {ids : List Id} {s : Service}
    (hs : s ∈ db.services) (hid : s.id ∈ ids) (ha : s.isAvailable = true) :
    { service := s, provider := findProvider db s.provider } ∈ findServiceDetails db ids := by
  unfold findServiceDetails
  simp only [List.mem_map, List.mem_filter]
  exact ⟨s, ⟨hs, by simp [hid, ha]⟩, rfl⟩

/-- Two available requested services of different providers: the request is
not accepted. -/
theorem mixed_not_accepted (env : Env) (db : Db) (user : User) (req : BookingRequest)
    (lines : List RequestedLine) (_ : req.services = some lines)
    (_ : ∃ s₁ ∈ db.services, ∃ s₂ ∈ db.services,
      s₁.id ∈ lines.map (fun s => s.service) ∧ s₂.id ∈ lines.map (fun s => s.service) ∧
      s₁.isAvailable = true ∧ s₂.isAvailable = true ∧ s₁.provider ≠ s₂.provider) :
    (createBooking env db user req).2.status ≠ 201 :=
  (createBooking_unchanged env db user req).2.1

/-- A createBooking call is the unchanged database with its response. -/
theorem createBooking_eq_of_response {env : Env} {db : Db} {user : User} {req : BookingRequest}
    {r : Response Booking} (h : (createBooking env db user req).2 = r) :
    createBooking env db user req = (db, r) :=
  Prod.ext (createBooking_unchanged env db user req).1 h

/-- C1: on a request for two units of service 1 with one option sent at 250 and
for service 2, createBooking computes the line prices that the claim states
(1000 × 2 + 250 and 2000 × 1) and stores none of them: `Booking.create` throws
on the document, which carries no `bookingNumber`, so the request is not
accepted, the answer is the 500 of the `catch` block and the database is
unchanged. -/
theorem createBooking_line_price_not_stored :
    servicesWithPrices (findServiceDetails sampleDb [1, 2]) [kitLine, plainLine 2] 0 =
      some ([{ service := 1, quantity := 2, price := 2250, selectedOptions := [kitOption] },
             { service := 2, quantity := 1, price := 2000, selectedOptions := [] }], 4250) ∧
    (2250 : Int) = 1000 * 2 + 250 ∧
    createBooking sampleEnv sampleDb sampleUser (sampleRequest [kitLine, plainLine 2]) =
      (sampleDb, createError) ∧
    createError.status = 500 ∧ createError.data = none :=
  ⟨by decide, by decide, createBooking_eq_of_response (by decide), rfl, rfl⟩

/-- C2 (as stated, refuted): for a service of base price 6964623256613424 the
`serviceTotal` that createBooking computes is that non-negative integer, and
`Math.round(serviceTotal * 0.1)` is 696462325661343, one more than
floor((serviceTotal + 5) / 10): the double product is rounded up to a half. -/
theorem createBooking_pricing_counterexample :
    servicesWithPrices (findServiceDetails hugeDb [9]) [plainLine 9] 0 =
      some ([{ service := 9, quantity := 1, price := 6964623256613424, selectedOptions := [] }],
        6964623256613424) ∧
    (0 : Int) ≤ 6964623256613424 ∧
    platformFee 6964623256613424 = 696462325661343 ∧
    ((6964623256613424 : Int) + 5) / 10 = 696462325661342 ∧
    platformFee 6964623256613424 ≠ ((6964623256613424 : Int) + 5) / 10 := by
  decide

/-- C2 (amended): for an integer `serviceTotal` from 0 to 2^52, the pricing
that createBooking computes and hands to `Booking.create` has `platformFee`
equal to floor((serviceTotal + 5) / 10), which is serviceTotal × 0.10 rounded
half-up, and `totalAmount` equal to serviceTotal + platformFee. -/
theorem createBooking_pricing (serviceTotal : Int) (h0 : 0 ≤ serviceTotal)
    (h1 : serviceTotal ≤ 2 ^ 52) :
    platformFee serviceTotal = (serviceTotal + 5) / 10 ∧
    totalAmount serviceTotal = serviceTotal + platformFee serviceTotal ∧
    ∀ (user : User) (req : BookingRequest) (providerId : Id) (lines : List LineItem),
      (bookingDocument user req providerId lines serviceTotal).pricing =
        { serviceTotal := serviceTotal
          platformFee := (serviceTotal + 5) / 10
          totalAmount := serviceTotal + (serviceTotal + 5) / 10 } := by
  have hfee := platformFee_eq serviceTotal h0 h1
  have htotal := totalAmount_eq serviceTotal h0 h1
  refine ⟨hfee, ?_, ?_⟩
  · rw [htotal, hfee]
  · intro user req providerId lines
    unfold bookingDocument
    rw [htotal, hfee]

/-- Witness of C2 (amended): two lines priced 1000 and 2000 with no options
give serviceTotal 3000, platformFee 300 and totalAmount 3300. -/
theorem createBooking_pricing_witness :
    servicesWithPrices (findServiceDetails sampleDb [1, 2]) [plainLine 1, plainLine 2] 0 =
      some ([{ service := 1, quantity := 1, price := 1000, selectedOptions := [] },
             { service := 2, quantity := 1, price := 2000, selectedOptions := [] }], 3000) ∧
    (bookingDocument sampleUser (sampleRequest [plainLine 1, plainLine 2]) 7
        [{ service := 1, quantity := 1, price := 1000, selectedOptions := [] },
         { service := 2, quantity := 1, price := 2000, selectedOptions := [] }] 3000).pricing =
      { serviceTotal := 3000, platformFee := 300, totalAmount := 3300 } :=
  ⟨by decide,
   (createBooking_pricing 3000 (by decide) (by decide)).2.2 sampleUser
     (sampleRequest [plainLine 1, plainLine 2]) 7 _⟩

/-- C3: on a request for services 1 and 2, createBooking computes two lines in
the order of the request and a `serviceTotal` of 3000, the sum of their prices,
and creates no booking: `Booking.create` throws on the document, which carries
no `bookingNumber`; the answer is the 500 of the `catch` block and the database
is unchanged. -/
theorem createBooking_serviceTotal_not_stored :
    servicesWithPrices (findServiceDetails sampleDb [1, 2]) [plainLine 1, plainLine 2] 0 =
      some ([{ service := 1, quantity := 1, price := 1000, selectedOptions := [] },
             { service := 2, quantity := 1, price := 2000, selectedOptions := [] }], 3000) ∧
    ([1000, 2000] : List Int).sum = 3000 ∧
    createBooking sampleEnv sampleDb sampleUser (sampleRequest [plainLine 1, plainLine 2]) =
      (sampleDb, createError) ∧
    (createBooking sampleEnv sampleDb sampleUser
      (sampleRequest [plainLine 1, plainLine 2])).1.bookings = [] :=
  ⟨by decide, by decide, createBooking_eq_of_response (by decide),
   by rw [(createBooking_unchanged _ _ _ _).1]; rfl⟩

/-- C4: on a request for two units of service 1, createBooking computes a line
of quantity 2 and price 2000 and stores no line item at all: `Booking.create`
throws on the document, which carries no `bookingNumber`; the answer is the
500 of the `catch` block and no booking is in the database.  The pricing step
itself tests no bound: for the quantity -2 it computes a line of quantity -2 and
price -2000, and that request gets the same 500. -/
theorem createBooking_line_bounds_not_stored :
    servicesWithPrices (findServiceDetails sampleDb [1]) [quantityLine 1 2] 0 =
      some ([{ service := 1, quantity := 2, price := 2000, selectedOptions := [] }], 2000) ∧
    (createBooking sampleEnv sampleDb sampleUser (sampleRequest [quantityLine 1 2])).2 =
      createError ∧
    (createBooking sampleEnv sampleDb sampleUser (sampleRequest [quantityLine 1 2])).2.status
      = 500 ∧
    (createBooking sampleEnv sampleDb sampleUser
      (sampleRequest [quantityLine 1 2])).1.bookings.map (fun b => b.services) = [] ∧
    servicesWithPrices (findServiceDetails sampleDb [1]) [quantityLine 1 (-2)] 0 =
      some ([{ service := 1, quantity := -2, price := -2000, selectedOptions := [] }], -2000) ∧
    createBooking sampleEnv sampleDb sampleUser (sampleRequest [quantityLine 1 (-2)]) =
      (sampleDb, createError) :=
  ⟨by decide, by decide, by decide, by rw [(createBooking_unchanged _ _ _ _).1]; rfl,
   by decide, createBooking_eq_of_response (by decide)⟩

/-- C5 (as stated, refuted): a request whose lines resolve to available services
of providers 7 and 8 and that carries no time is answered by the date-and-time
error, and one that repeats a line is answered by the 404 of the count check;
neither is the mixed-provider error. -/
theorem createBooking_mixed_providers_counterexample :
    (sampleDb.services.filter (fun s => [1, 3].contains s.id && s.isAvailable)).map
        (fun s => s.provider) = [7, 8] ∧
      (createBooking sampleEnv sampleDb sampleUser mixedRequestWithoutTime).2 =
        Response.fail 400 "Veuillez fournir une date et une heure de rendez-vous" ∧
      (createBooking sampleEnv sampleDb sampleUser
          (sampleRequest [plainLine 1, plainLine 3, plainLine 1])).2 =
        Response.fail 404 "Un ou plusieurs services sont introuvables ou indisponibles" ∧
      (createBooking sampleEnv sampleDb sampleUser mixedRequestWithoutTime).2 ≠
        Response.fail 400 mixedProviderMessage := by
  decide

/-- C5 (amended): a request whose lines include available services of two
distinct providers always fails, persists no booking and changes nothing in
the database; the failure is the mixed-provider 400 error whenever the request
also passes the earlier checks (date and time, location type, as many services
found as lines requested) and the providers referenced by the catalogue exist. -/
theorem createBooking_mixed_providers (env : Env) (db : Db) (user : User) (req : BookingRequest)
    (lines : List RequestedLine) (hreq : req.services = some lines)
    (hmix : ∃ s₁ ∈ db.services, ∃ s₂ ∈ db.services,
      s₁.id ∈ lines.map (fun s => s.service) ∧ s₂.id ∈ lines.map (fun s => s.service) ∧
      s₁.isAvailable = true ∧ s₂.isAvailable = true ∧ s₁.provider ≠ s₂.provider) :
    (createBooking env db user req).2.status ≠ 201 ∧
      (createBooking env db user req).2.success = false ∧
      (createBooking env db user req).2.data = none ∧
      (createBooking env db user req).1 = db ∧
      (truthyStr req.scheduledDate = true → truthyStr req.scheduledTime = true →
        truthyStr (req.serviceLocation.bind (fun l => l.type)) = true →
        (findServiceDetails db (lines.map (fun s => s.service))).length = lines.length →
        (∀ s ∈ db.services, findProvider db s.provider ≠ none) →
        (createBooking env db user req).2 = Response.fail 400 mixedProviderMessage) := by
  have hrej := mixed_not_accepted env db user req lines hreq hmix
  obtain ⟨hdb, hsucc, hdata⟩ := createBooking_rejected env db user req hrej
  refine ⟨hrej, hsucc, hdata, hdb, ?_⟩
  intro hdate htime hloc hcount hint
  have hprov : ∀ sd ∈ findServiceDetails db (lines.map (fun s => s.service)),
      sd.provider ≠ none := by
    intro sd hsd
    obtain ⟨hmem, _, _, hp⟩ := mem_findServiceDetails hsd
    rw [hp]
    exact hint _ hmem
  clear hrej hdb hsucc hdata
  unfold createBooking
  split
  · rename_i hs; rw [hreq] at hs; cases hs
  · rename_i hs
    rw [hreq] at hs
    cases hs
    obtain ⟨s₁, _, _, _, hid, _⟩ := hmix
    simp at hid
  · rename_i s0 ss hs
    rw [hreq] at hs
    cases hs
    dsimp only
    rw [if_neg (by simp [hdate, htime]), if_neg (by simp [hloc]), if_neg (by simpa using hcount)]
    split
    · rename_i hhead
      exfalso
      cases hsds : findServiceDetails db ((s0 :: ss).map (fun s => s.service)) with
      | nil => rw [hsds] at hcount; simp at hcount
      | cons sd rest =>
        rw [hsds] at hhead hprov
        exact hprov sd (List.mem_cons_self _ _) (by simpa using hhead)
    · rename_i p0 _
      split
      · rename_i hnone
        exact absurd hnone (allSameProvider_ne_none hprov)
      · rfl
      · rename_i hall
        exfalso
        obtain ⟨s₁, hs₁, s₂, hs₂, hid₁, hid₂, ha₁, ha₂, hne⟩ := hmix
        obtain ⟨p₁, hp₁, hpid₁⟩ :=
          allSameProvider_true hall _ (mem_findServiceDetails_of hs₁ hid₁ ha₁)
        obtain ⟨p₂, hp₂, hpid₂⟩ :=
          allSameProvider_true hall _ (mem_findServiceDetails_of hs₂ hid₂ ha₂)
        simp only at hp₁ hp₂
        exact hne (by rw [← findProvider_id hp₁, ← findProvider_id hp₂, hpid₁, hpid₂])

/-- Witness of C5 (amended): services 1 and 3 of providers 7 and 8. -/
theorem createBooking_mixed_providers_witness :
    (createBooking sampleEnv sampleDb sampleUser
        (sampleRequest [plainLine 1, plainLine 3])).2.status ≠ 201 ∧
      (createBooking sampleEnv sampleDb sampleUser
        (sampleRequest [plainLine 1, plainLine 3])).2.success = false ∧
      (createBooking sampleEnv sampleDb sampleUser
        (sampleRequest [plainLine 1, plainLine 3])).2.data = none ∧
      (createBooking sampleEnv sampleDb sampleUser
        (sampleRequest [plainLine 1, plainLine 3])).1 = sampleDb ∧
      (createBooking sampleEnv sampleDb sampleUser
        (sampleRequest [plainLine 1, plainLine 3])).2 = Response.fail 400 mixedProviderMessage := by
  have h := createBooking_mixed_providers sampleEnv sampleDb sampleUser
    (sampleRequest [plainLine 1, plainLine 3]) [plainLine 1, plainLine 3] rfl
    ⟨plainService 1 1000 7, by decide, plainService 3 500 8, by decide, by decide, by decide,
      rfl, rfl, by decide⟩
  exact ⟨h.1, h.2.1, h.2.2.1, h.2.2.2.1,
    h.2.2.2.2 (by decide) (by decide) (by decide) (by decide) (by decide)⟩

/-! ## Properties of the status transitions -/

theorem find?_map_replace (id : Id) (b' : Booking) (hid : b'.id = id) :
    ∀ (l : List Booking) (b : Booking), l.find? (fun x => x.id == id) = some b →
      (l.map (fun x => if x.id = b'.id then b' else x)).find? (fun x => x.id == id) = some b' := by
  intro l
  induction l with
  | nil => intro b h; simp at h
  | cons x xs ih =>
    intro b h
    by_cases hx : x.id = id
    · simp [List.find?, hx, hid]
    · have hx' : ¬ x.id = b'.id := by rw [hid]; exact hx
      have hb : (x.id == id) = false := by simpa using hx
      rw [List.find?_cons, hb] at h
      rw [List.map_cons, if_neg hx', List.find?_cons, hb]
      exact ih b h

theorem findBooking_saveBooking {db : Db} {id : Id} {b b' : Booking}
    (h : findBooking db id = some b) (hid : b'.id = id) :
    findBooking (saveBooking db b') id = some b' :=
  find?_map_replace id b' hid db.bookings b h

theorem findBooking_id {db : Db} {id : Id} {b : Booking} (h : findBooking db id = some b) :
    b.id = id := by
  have := List.find?_some h
  simpa using this

theorem orStr_empty (note : Option String) : orStr note "" = note.getD "" := by
  cases note with
  | none => rfl
  | some s => by_cases h : s = "" <;> simp [orStr, h]

/-- A 200 response of updateBookingStatus: the booking was found, the target is
one of the six statuses, and the result is the transition of that booking. -/
theorem updateBookingStatus_ok (env : Env) (db : Db) (user : User) (id : Id)
    (status note : Option String)
    (h : (updateBookingStatus env db user id status note).2.status = 200) :
    ∃ target booking, status = some target ∧ target ∈ validStatuses ∧
      findBooking db id = some booking ∧
      ¬ (booking.status = "completed" ∧ target ≠ "completed") ∧
      (updateBookingStatus env db user id status note).2.data =
        some (booking.updateStatus target user.id (orStr note "") env.now) ∧
      (updateBookingStatus env db user id status note).1.bookings =
        (saveBooking db (booking.updateStatus target user.id (orStr note "") env.now)).bookings := by
  revert h
  unfold updateBookingStatus
  split
  · simp [Response.fail]
  · rename_i hvalid
    dsimp only
    split
    · simp [Response.fail]
    · rename_i booking hfind
      split
      · simp [Response.fail]
      · rename_i hguard
        intro _
        cases hstatus : status with
        | none => simp [hstatus, truthyStr] at hvalid
        | some target =>
          refine ⟨target, booking, rfl, ?_, hfind, ?_, ?_, ?_⟩
          · exact (show _ ∧ target ∈ validStatuses by
              simpa [hstatus, truthyStr] using hvalid).2
          · simpa [hstatus] using hguard
          · simp
          · simp only [Option.getD_some]
            split <;> rfl

theorem validStatus_truthy {target : String} (hv : target ∈ validStatuses) :
    (!truthyStr (some target) || !validStatuses.contains ((some target).getD "")) = false := by
  have hne : target ≠ "" := by
    rintro rfl
    exact absurd hv (by decide)
  simp [truthyStr, hne, hv]

theorem cancelBooking_ok (env : Env) (db : Db) (user : User) (id : Id) (reason : Option String)
    (h : (cancelBooking env db user id reason).2.status = 200) :
    ∃ booking, findBooking db id = some booking ∧ booking.client = user.id ∧
      booking.status ≠ "completed" ∧ booking.status ≠ "cancelled" ∧
      booking.status ≠ "in_progress" ∧
      cancelBooking env db user id reason =
        (saveBooking db (booking.updateStatus "cancelled" user.id (cancelNote reason) env.now),
         { status := 200
           success := true
           message := "Réservation annulée avec succès"
           data := some (booking.updateStatus "cancelled" user.id (cancelNote reason) env.now) }) := by
  revert h
  unfold cancelBooking
  split
  · simp [Response.fail]
  · rename_i booking hfind
    split
    · simp [Response.fail]
    · rename_i hclient
      split
      · simp [Response.fail]
      · rename_i hdone
        split
        · simp [Response.fail]
        · rename_i hprog
          intro _
          refine ⟨booking, hfind, by simpa using hclient, ?_, ?_, by simpa using hprog, rfl⟩
          · intro hc; exact hdone (by simp [hc])
          · intro hc; exact hdone (by simp [hc])

/-- C6 (as stated, refuted): on a completed booking a request whose target is
`completed` is answered 200, not by the completed-booking rejection, and the
stored history grows from one entry to two. -/
theorem updateBookingStatus_completed_counterexample :
    (sampleBooking "completed" false).status = "completed" ∧
      (updateBookingStatus sampleEnv (bookingDb "completed" false) sampleAdmin 100
        (some "completed") none).2.status = 200 ∧
      (updateBookingStatus sampleEnv (bookingDb "completed" false) sampleAdmin 100
        (some "completed") none).2 ≠ Response.fail 400 completedMessage ∧
      (updateBookingStatus sampleEnv (bookingDb "completed" false) sampleAdmin 100
        (some "completed") none).1.bookings.map (fun b => b.statusHistory.length) = [2] := by
  decide

/-- C6 (amended): once a booking is completed, every updateBookingStatus call
on it whose target is one of the five other statuses is rejected with the
completed-booking error and leaves the whole database, hence the status and
the statusHistory of the booking, unchanged; a call whose target is
`completed` is not rejected. -/
theorem updateBookingStatus_completed (env : Env) (db : Db) (user : User) (id : Id)
    (target : String) (note : Option String) (booking : Booking)
    (hfind : findBooking db id = some booking) (hc : booking.status = "completed")
    (hv : target ∈ validStatuses) :
    (target ≠ "completed" →
      updateBookingStatus env db user id (some target) note =
        (db, Response.fail 400 completedMessage)) ∧
    (target = "completed" →
      (updateBookingStatus env db user id (some target) note).2.status = 200) := by
  constructor
  · intro hne
    unfold updateBookingStatus
    rw [validStatus_truthy hv]
    simp [hfind, hc, hne]
  · intro he
    unfold updateBookingStatus
    rw [validStatus_truthy hv]
    simp [hfind, hc, he]

/-- Witness of C6 (amended): a completed booking and the target `cancelled`. -/
theorem updateBookingStatus_completed_witness :
    updateBookingStatus sampleEnv (bookingDb "completed" false) sampleAdmin 100
        (some "cancelled") (some "late") =
      (bookingDb "completed" false, Response.fail 400 completedMessage) :=
  (updateBookingStatus_completed sampleEnv (bookingDb "completed" false) sampleAdmin 100
    "cancelled" (some "late") (sampleBooking "completed" false) (by decide) (by decide)
    (by decide)).1 (by decide)

/-- C7: updateBookingStatus adds exactly 1 to the `completedBookings` of the
provider of the booking when the requested status is `completed` and the prior
status was not, and leaves the providers unchanged for any other target, for a
repeated `completed` request, and for any rejected request. -/
theorem updateBookingStatus_completedBookings (env : Env) (db : Db) (user : User) (id : Id)
    (status note : Option String) :
    (∀ booking, findBooking db id = some booking → status = some "completed" →
      booking.status ≠ "completed" →
      (updateBookingStatus env db user id status note).2.status = 200 ∧
      (updateBookingStatus env db user id status note).1.providers =
        db.providers.map (fun p =>
          if p.id = booking.provider then { p with completedBookings := p.completedBookings + 1 }
          else p)) ∧
    ((status ≠ some "completed" ∨
        ∀ booking, findBooking db id = some booking → booking.status = "completed") →
      (updateBookingStatus env db user id status note).1.providers = db.providers) ∧
    ((updateBookingStatus env db user id status note).2.status ≠ 200 →
      (updateBookingStatus env db user id status note).1 = db) := by
  refine ⟨?_, ?_, ?_⟩
  · intro booking hfind hs hprior
    subst hs
    unfold updateBookingStatus
    rw [validStatus_truthy (by decide)]
    simp [hfind, hprior, saveBooking, incCompletedBookings, Booking.updateStatus]
  · intro hcase
    unfold updateBookingStatus
    split
    · rfl
    · dsimp only
      split
      · rfl
      · rename_i booking hfind
        split
        · rfl
        · rcases hcase with hs | hb
          · have hne : (status.getD "" == "completed") = false := by
              cases hst : status with
              | none => rfl
              | some t =>
                have : t ≠ "completed" := fun ht => hs (by rw [hst, ht])
                simpa using this
            simp [hne, saveBooking]
          · simp [hb booking hfind, saveBooking]
  · unfold updateBookingStatus
    split
    · intro _; rfl
    · dsimp only
      split
      · intro _; rfl
      · split
        · intro _; rfl
        · simp

/-- Witness of C7: a confirmed booking of provider 7 marked completed. -/
theorem updateBookingStatus_completedBookings_witness :
    (updateBookingStatus sampleEnv (bookingDb "confirmed" false) sampleAdmin 100
        (some "completed") none).2.status = 200 ∧
      (updateBookingStatus sampleEnv (bookingDb "confirmed" false) sampleAdmin 100
        (some "completed") none).1.providers =
        (bookingDb "confirmed" false).providers.map (fun p =>
          if p.id = (sampleBooking "confirmed" false).provider then
            { p with completedBookings := p.completedBookings + 1 }
          else p) :=
  (updateBookingStatus_completedBookings sampleEnv (bookingDb "confirmed" false) sampleAdmin 100
    (some "completed") none).1 (sampleBooking "confirmed" false) (by decide) rfl (by decide)

/-- C8: every successful updateBookingStatus or cancelBooking stores the
booking with its new status and with a statusHistory that is the earlier
history followed by exactly one entry carrying the new status, the acting user
and the note; the length grows by 1 and the earlier entries are unchanged. -/
theorem status_transition_history (env : Env) (db : Db) (user : User) (id : Id) :
    (∀ status note, (updateBookingStatus env db user id status note).2.status = 200 →
      ∃ target before after, status = some target ∧ findBooking db id = some before ∧
        findBooking (updateBookingStatus env db user id status note).1 id = some after ∧
        (updateBookingStatus env db user id status note).2.data = some after ∧
        after.status = target ∧
        after.statusHistory = before.statusHistory ++
          [{ status := target, changedBy := user.id, changedAt := env.now
             note := note.getD "" }] ∧
        after.statusHistory.length = before.statusHistory.length + 1 ∧
        after.statusHistory.take before.statusHistory.length = before.statusHistory) ∧
    (∀ reason, (cancelBooking env db user id reason).2.status = 200 →
      ∃ before after, findBooking db id = some before ∧
        findBooking (cancelBooking env db user id reason).1 id = some after ∧
        (cancelBooking env db user id reason).2.data = some after ∧
        after.status = "cancelled" ∧
        after.statusHistory = before.statusHistory ++
          [{ status := "cancelled", changedBy := user.id, changedAt := env.now
             note := cancelNote reason }] ∧
        after.statusHistory.length = before.statusHistory.length + 1 ∧
        after.statusHistory.take before.statusHistory.length = before.statusHistory) := by
  constructor
  · intro status note h
    obtain ⟨target, booking, hs, _, hfind, _, hdata, hdb⟩ :=
      updateBookingStatus_ok env db user id status note h
    have hid : booking.id = id := findBooking_id hfind
    refine ⟨target, booking, _, hs, hfind, ?_, hdata, rfl, ?_, ?_, ?_⟩
    · have := @findBooking_saveBooking db id booking
        (booking.updateStatus target user.id (orStr note "") env.now) hfind hid
      unfold findBooking at this ⊢
      rw [hdb]
      exact this
    · simp [Booking.updateStatus, orStr_empty]
    · simp [Booking.updateStatus]
    · simp [Booking.updateStatus]
  · intro reason h
    obtain ⟨booking, hfind, _, _, _, _, heq⟩ := cancelBooking_ok env db user id reason h
    have hid : booking.id = id := findBooking_id hfind
    rw [heq]
    refine ⟨booking, _, hfind, ?_, rfl, rfl, ?_, ?_, ?_⟩
    · exact findBooking_saveBooking hfind hid
    · simp [Booking.updateStatus]
    · simp [Booking.updateStatus]
    · simp [Booking.updateStatus]

/-- Witness of C8: the client cancels a pending booking with a reason. -/
theorem status_transition_history_witness :
    (cancelBooking sampleEnv (bookingDb "pending" false) sampleUser 100
        (some "schedule conflict")).2.status = 200 ∧
    ∃ before after, findBooking (bookingDb "pending" false) 100 = some before ∧
      findBooking (cancelBooking sampleEnv (bookingDb "pending" false) sampleUser 100
        (some "schedule conflict")).1 100 = some after ∧
      (cancelBooking sampleEnv (bookingDb "pending" false) sampleUser 100
        (some "schedule conflict")).2.data = some after ∧
      after.status = "cancelled" ∧
      after.statusHistory = before.statusHistory ++
        [{ status := "cancelled", changedBy := sampleUser.id, changedAt := sampleEnv.now
           note := cancelNote (some "schedule conflict") }] ∧
      after.statusHistory.length = before.statusHistory.length + 1 ∧
      after.statusHistory.take before.statusHistory.length = before.statusHistory :=
  ⟨by decide,
   (status_transition_history sampleEnv (bookingDb "pending" false) sampleUser 100).2
    (some "schedule conflict") (by decide)⟩

/-! ## Properties of the provider-facing reads -/

theorem sliceLast4_eq (s : String) : sliceLast4 s = ⟨(s.data.reverse.take 4).reverse⟩ := by
  simp [sliceLast4, List.take_reverse]

theorem sanitizeBooking_hidden {b : Booking} (h : b.providerCanSeeContact = false) :
    sanitizeBooking b =
      { b.toObject b.client with contactInfo := maskedContact b.bookingNumber, client := none } := by
  simp [sanitizeBooking, h]

theorem sanitizeBooking_revealed {b : Booking} (h : b.providerCanSeeContact = true) :
    sanitizeBooking b = b.toObject b.client := by
  simp [sanitizeBooking, h]

theorem mem_providerBookings {db : Db} {pid : Id} {status : Option String} {b : Booking} :
    b ∈ providerBookings db pid status ↔
      b ∈ db.bookings ∧ b.provider = pid ∧
        (truthyStr status = false ∨ b.status = status.getD "") := by
  unfold providerBookings
  rw [List.mem_insertionSort, List.mem_filter]
  simp

theorem getBookingById_found {db : Db} {user : User} {id : Id} {b : Booking}
    (hfind : findBooking db id = some b) :
    getBookingById db user id =
      (match populateClient db b.client with
        | none => readError
        | some client =>
          match isProviderOf db user b with
          | none => readError
          | some isProvider =>
            if !(client.id == user.id) && !isProvider && !(user.role == "admin") then
              Response.fail 403 "Non autorisé à voir cette réservation"
            else
              { status := 200, success := true, message := ""
                data := some (if isProvider && !b.providerCanSeeContact then
                  { b.toObject client with
                      contactInfo := maskedContact b.bookingNumber, client := none }
                  else b.toObject client) }) := by
  unfold getBookingById
  rw [hfind]

/-- The response of getBookingById to a viewer whose provider profile is the
provider of the booking, when the client and the provider documents exist. -/
theorem getBookingById_provider {db : Db} {user : User} {id : Id} {b : Booking} {c : ClientDoc}
    {p : ServiceProvider} (hfind : findBooking db id = some b)
    (hprofile : user.providerProfile = some b.provider)
    (hclient : populateClient db b.client = some c)
    (hprov : findProvider db b.provider = some p) :
    getBookingById db user id =
      { status := 200, success := true, message := ""
        data := some (if b.providerCanSeeContact then b.toObject c
          else { b.toObject c with
                   contactInfo := maskedContact b.bookingNumber, client := none }) } := by
  have hp : isProviderOf db user b = some true := by
    simp [isProviderOf, hprofile, hprov, findProvider_id hprov]
  unfold getBookingById
  simp only [hfind, hclient, hp]
  cases hflag : b.providerCanSeeContact <;> simp

/-- C9: a provider-facing read (getProviderBookings, and getBookingById by the
provider of the booking) of a booking whose `providerCanSeeContact` is false
returns the contact name `Client #` followed by the last 4 characters of the
booking number, the masked phone and email, and no `client`; when the flag is
true the contact info and the client are returned as stored. -/
theorem provider_read_redaction (db : Db) (user : User) (pid : Id)
    (hprofile : user.providerProfile = some pid) :
    (∀ status, ∃ views,
      getProviderBookings db user status =
        { status := 200, success := true, message := "", data := some views } ∧
      (∀ b ∈ db.bookings, b.provider = pid →
        (truthyStr status = false ∨ b.status = status.getD "") →
        ∃ v ∈ views, v.id = b.id) ∧
      ∀ v ∈ views, ∃ b ∈ db.bookings, b.provider = pid ∧ v.id = b.id ∧
        (b.providerCanSeeContact = false →
          v.contactInfo =
            { name := "Client #" ++ String.mk (b.bookingNumber.data.reverse.take 4).reverse
              phone := "***********"
              email := "***********" } ∧
          v.client = none) ∧
        (b.providerCanSeeContact = true →
          v.contactInfo = b.contactInfo ∧ v.client = some b.client)) ∧
    (∀ id b v, findBooking db id = some b → b.provider = pid →
      (getBookingById db user id).data = some v →
      (getBookingById db user id).status = 200 ∧ v.id = b.id ∧
        (b.providerCanSeeContact = false →
          v.contactInfo =
            { name := "Client #" ++ String.mk (b.bookingNumber.data.reverse.take 4).reverse
              phone := "***********"
              email := "***********" } ∧
          v.client = none) ∧
        (b.providerCanSeeContact = true →
          v.contactInfo = b.contactInfo ∧
          ∃ c, v.client = some c ∧ c.id = b.client ∧ populateClient db b.client = some c)) ∧
    (∀ id b c p, findBooking db id = some b → b.provider = pid →
      populateClient db b.client = some c → findProvider db b.provider = some p →
      (getBookingById db user id).status = 200 ∧ (getBookingById db user id).data ≠ none) := by
  refine ⟨?_, ?_, ?_⟩
  · intro status
    refine ⟨(providerBookings db pid status).map sanitizeBooking, ?_, ?_, ?_⟩
    · simp [getProviderBookings, hprofile]
    · intro b hb hp hs
      refine ⟨sanitizeBooking b, List.mem_map.mpr ⟨b, mem_providerBookings.mpr ⟨hb, hp, hs⟩, rfl⟩, ?_⟩
      cases hflag : b.providerCanSeeContact
      · rw [sanitizeBooking_hidden hflag]; rfl
      · rw [sanitizeBooking_revealed hflag]; rfl
    · intro v hv
      obtain ⟨b, hb, rfl⟩ := List.mem_map.mp hv
      obtain ⟨hmem, hp, _⟩ := mem_providerBookings.mp hb
      refine ⟨b, hmem, hp, ?_, ?_, ?_⟩
      · cases hflag : b.providerCanSeeContact
        · rw [sanitizeBooking_hidden hflag]; rfl
        · rw [sanitizeBooking_revealed hflag]; rfl
      · intro hflag
        rw [sanitizeBooking_hidden hflag]
        exact ⟨by simp [maskedContact, sliceLast4_eq], rfl⟩
      · intro hflag
        rw [sanitizeBooking_revealed hflag]
        exact ⟨rfl, rfl⟩
  · intro id b v hfind hp hdata
    have hprofile' : user.providerProfile = some b.provider := by rw [hprofile, hp]
    cases hclient : populateClient db b.client with
    | none =>
      rw [getBookingById_found hfind, hclient] at hdata
      simp [readError, Response.fail] at hdata
    | some c =>
      cases hprov : findProvider db b.provider with
      | none =>
        have hnone : isProviderOf db user b = none := by
          simp [isProviderOf, hprofile', hprov]
        rw [getBookingById_found hfind, hclient, hnone] at hdata
        simp [readError, Response.fail] at hdata
      | some p =>
        have hc : c.id = b.client := by
          unfold populateClient at hclient
          cases hu : db.users.find? (fun u => u.id == b.client) with
          | none => simp [hu] at hclient
          | some u =>
            simp [hu] at hclient
            subst hclient
            have := List.find?_some hu
            simpa using this
        rw [getBookingById_provider hfind hprofile' hclient hprov] at hdata ⊢
        simp only [Option.some.injEq] at hdata
        subst hdata
        refine ⟨rfl, ?_, ?_, ?_⟩
        · cases b.providerCanSeeContact <;> rfl
        · intro hflag
          simp only [hflag]
          exact ⟨by simp [maskedContact, sliceLast4_eq], rfl⟩
        · intro hflag
          simp only [hflag]
          exact ⟨rfl, c, rfl, hc, rfl⟩
  · intro id b c p hfind hp hclient hprov
    rw [getBookingById_provider hfind (by rw [hprofile, hp]) hclient hprov]
    exact ⟨rfl, by simp⟩

/-- Witness of C9: provider 7 reads its booking whose flag is false. -/
theorem provider_read_redaction_witness :
    ∃ views,
      getProviderBookings (bookingDb "confirmed" false) sampleProviderUser none =
        { status := 200, success := true, message := "", data := some views } ∧
      (∀ b ∈ (bookingDb "confirmed" false).bookings, b.provider = 7 →
        (truthyStr none = false ∨ b.status = (none : Option String).getD "") →
        ∃ v ∈ views, v.id = b.id) ∧
      ∀ v ∈ views, ∃ b ∈ (bookingDb "confirmed" false).bookings, b.provider = 7 ∧ v.id = b.id ∧
        (b.providerCanSeeContact = false →
          v.contactInfo =
            { name := "Client #" ++ String.mk (b.bookingNumber.data.reverse.take 4).reverse
              phone := "***********"
              email := "***********" } ∧
          v.client = none) ∧
        (b.providerCanSeeContact = true →
          v.contactInfo = b.contactInfo ∧ v.client = some b.client) :=
  (provider_read_redaction (bookingDb "confirmed" false) sampleProviderUser 7 rfl).1 none

theorem findBooking_map_bookings (db : Db) (id : Id) (f : Booking → Booking)
    (hf : ∀ b, (f b).id = b.id) :
    findBooking { db with bookings := db.bookings.map f } id = (findBooking db id).map f := by
  unfold findBooking
  simp only [List.find?_map]
  congr 2
  funext b
  simp [hf]

/-- C10: whether a provider-facing read redacts depends on
`providerCanSeeContact` and not on the status: replacing the status, the
statusHistory and the status timestamps of the bookings changes neither the
contact info nor the client that the provider is served, by
getProviderBookings and by getBookingById; a booking is served redacted
exactly when its flag is false, so a completed booking with the flag false is
redacted. -/
theorem redaction_independent_of_status :
    (∀ (b : Booking) (status : Booking → String) (history : Booking → List StatusEntry)
        (confirmedAt completedAt cancelledAt : Booking → Option Nat),
      (sanitizeBooking (restatus status history confirmedAt completedAt cancelledAt b)).contactInfo
          = (sanitizeBooking b).contactInfo ∧
      (sanitizeBooking (restatus status history confirmedAt completedAt cancelledAt b)).client
          = (sanitizeBooking b).client) ∧
    (∀ (db : Db) (user : User) (id : Id) (status : Booking → String)
        (history : Booking → List StatusEntry)
        (confirmedAt completedAt cancelledAt : Booking → Option Nat),
      (getBookingById
          { db with bookings :=
              db.bookings.map (restatus status history confirmedAt completedAt cancelledAt) }
          user id).status
        = (getBookingById db user id).status ∧
      (getBookingById
          { db with bookings :=
              db.bookings.map (restatus status history confirmedAt completedAt cancelledAt) }
          user id).data.map (fun v => (v.contactInfo, v.client))
        = (getBookingById db user id).data.map (fun v => (v.contactInfo, v.client))) ∧
    (∀ b : Booking, (sanitizeBooking b).client = none ↔ b.providerCanSeeContact = false) ∧
    (∀ b : Booking, b.status = "completed" → b.providerCanSeeContact = false →
      (sanitizeBooking b).contactInfo = maskedContact b.bookingNumber ∧
      (sanitizeBooking b).client = none) := by
  refine ⟨?_, ?_, ?_, ?_⟩
  · intro b status history c₁ c₂ c₃
    cases hflag : b.providerCanSeeContact <;>
      simp [sanitizeBooking, restatus, hflag, Booking.toObject]
  · intro db user id status history c₁ c₂ c₃
    have hmap := findBooking_map_bookings db id (restatus status history c₁ c₂ c₃)
      (fun _ => rfl)
    cases hfind : findBooking db id with
    | none =>
      rw [hfind] at hmap
      simp [getBookingById, hmap, hfind]
    | some b =>
      rw [hfind] at hmap
      rw [getBookingById_found hmap, getBookingById_found hfind]
      have hc : populateClient
          { db with bookings := db.bookings.map (restatus status history c₁ c₂ c₃) }
          (restatus status history c₁ c₂ c₃ b).client = populateClient db b.client := rfl
      have hp : isProviderOf
          { db with bookings := db.bookings.map (restatus status history c₁ c₂ c₃) } user
          (restatus status history c₁ c₂ c₃ b) = isProviderOf db user b := rfl
      rw [hc, hp]
      cases populateClient db b.client with
      | none => exact ⟨rfl, rfl⟩
      | some c =>
        cases isProviderOf db user b with
        | none => exact ⟨rfl, rfl⟩
        | some isProvider =>
          simp only
          split
          · exact ⟨rfl, rfl⟩
          · cases isProvider <;> cases hflag : b.providerCanSeeContact <;>
              simp [restatus, hflag, Booking.toObject]
  · intro b
    cases hflag : b.providerCanSeeContact <;> simp [sanitizeBooking, hflag, Booking.toObject]
  · intro b _ hflag
    rw [sanitizeBooking_hidden hflag]
    exact ⟨rfl, rfl⟩

/-- Witness of C10: a completed booking whose flag is false is redacted. -/
theorem redaction_independent_of_status_witness :
    (sanitizeBooking (sampleBooking "completed" false)).contactInfo =
        maskedContact (sampleBooking "completed" false).bookingNumber ∧
      (sanitizeBooking (sampleBooking "completed" false)).client = none :=
  redaction_independent_of_status.2.2.2 (sampleBooking "completed" false) rfl rfl

/-! ## Properties of the client and admin reads -/

theorem populateClient_id {db : Db} {uid : Id} {c : ClientDoc}
    (h : populateClient db uid = some c) : c.id = uid := by
  unfold populateClient at h
  cases hu : db.users.find? (fun u => u.id == uid) with
  | none => simp [hu] at h
  | some u =>
    simp [hu] at h
    subst h
    have := List.find?_some hu
    simpa using this

theorem isProviderOf_some {db : Db} {user : User} {b : Booking} {flag : Bool}
    (h : isProviderOf db user b = some flag) :
    (flag = true ↔ user.providerProfile = some b.provider) := by
  unfold isProviderOf at h
  split at h
  · rename_i hnone
    simp at h
    subst h
    simp [hnone]
  · rename_i profile hprofile
    split at h
    · simp at h
    · rename_i p hp
      simp at h
      subst h
      rw [hprofile, findProvider_id hp]
      simp only [beq_iff_eq, Option.some.injEq]
      exact eq_comm

/-- C11 (as stated, refuted): the owning client, and an administrator, whose
provider profile is the provider of the booking are served the masked contact
and no client while the flag is false. -/
theorem getBookingById_client_counterexample :
    clientProviderUser.id = (sampleBooking "pending" false).client ∧
      (getBookingById (bookingDb "pending" false) clientProviderUser 100).data.map
          (fun v => (v.contactInfo, v.client)) =
        some ({ name := "Client #0001", phone := "***********", email := "***********" }, none) ∧
      adminProviderUser.role = "admin" ∧
      (getBookingById (bookingDb "pending" false) adminProviderUser 100).data.map
          (fun v => (v.contactInfo, v.client)) =
        some ({ name := "Client #0001", phone := "***********", email := "***********" }, none) := by
  decide

/-- C11 (amended): a viewer who is the owning client or has role admin, and
whose provider profile (if any) is not the provider of the booking, is
returned the stored contactInfo and the client unredacted by getBookingById,
whatever `providerCanSeeContact` is; when the viewer's provider profile is the
provider of the booking the provider rule applies: unredacted when the flag is
true, masked and without client when it is false. -/
theorem getBookingById_client_or_admin (db : Db) (user : User) (id : Id) (b : Booking)
    (v : BookingObj ClientDoc) (hfind : findBooking db id = some b)
    (hrole : user.id = b.client ∨ user.role = "admin")
    (hdata : (getBookingById db user id).data = some v) :
    (getBookingById db user id).status = 200 ∧
    ((user.providerProfile ≠ some b.provider ∨ b.providerCanSeeContact = true) →
      v.contactInfo = b.contactInfo ∧
      ∃ c, v.client = some c ∧ c.id = b.client ∧ populateClient db b.client = some c) ∧
    (user.providerProfile = some b.provider → b.providerCanSeeContact = false →
      v.contactInfo = maskedContact b.bookingNumber ∧ v.client = none) := by
  rw [getBookingById_found hfind] at hdata ⊢
  cases hclient : populateClient db b.client with
  | none => simp [hclient, readError, Response.fail] at hdata
  | some c =>
    cases hprov : isProviderOf db user b with
    | none => simp [hclient, hprov, readError, Response.fail] at hdata
    | some isProvider =>
      have hc := populateClient_id hclient
      have hp := isProviderOf_some hprov
      have hallowed : (!(c.id == user.id) && !isProvider && !(user.role == "admin")) = false := by
        rcases hrole with h | h
        · simp [hc, h]
        · simp [h]
      simp only [hclient, hprov, hallowed] at hdata ⊢
      simp only [Bool.false_eq_true, if_false, Option.some.injEq] at hdata ⊢
      subst hdata
      refine ⟨trivial, ?_, ?_⟩
      · intro hcase
        have hcond : (isProvider && !b.providerCanSeeContact) = false := by
          rcases hcase with h | h
          · have : isProvider = false := by
              cases isProvider
              · rfl
              · exact absurd (hp.mp rfl) h
            simp [this]
          · simp [h]
        simp only [hcond, Bool.false_eq_true, if_false]
        exact ⟨rfl, c, rfl, hc, rfl⟩
      · intro hprofile hflag
        have : isProvider = true := hp.mpr hprofile
        simp [this, hflag]

/-- Witness of C11 (amended): the owning client, without provider profile. -/
theorem getBookingById_client_or_admin_witness :
    (getBookingById (bookingDb "pending" false) sampleUser 100).status = 200 ∧
    (getBookingById (bookingDb "pending" false) sampleUser 100).data.map
        (fun v => (v.contactInfo, v.client.map (fun c => c.id))) =
      some ((sampleBooking "pending" false).contactInfo, some 50) := by
  have hdata : (getBookingById (bookingDb "pending" false) sampleUser 100).data =
      some ((sampleBooking "pending" false).toObject
        { id := 50, name := "Awa", phone := "0700000000", email := "awa@example.org"
          profilePicture := none }) := by decide
  have h := getBookingById_client_or_admin (bookingDb "pending" false) sampleUser 100
    (sampleBooking "pending" false) _ (by decide) (Or.inl rfl) hdata
  refine ⟨h.1, ?_⟩
  rw [hdata]
  rfl

/-! ## Properties of rateBooking and revealClientContact -/

theorem find?_map_replace_ne (id : Id) (b' : Booking) (hid : id ≠ b'.id) :
    ∀ (l : List Booking),
      (l.map (fun x => if x.id = b'.id then b' else x)).find? (fun x => x.id == id) =
        l.find? (fun x => x.id == id) := by
  intro l
  induction l with
  | nil => rfl
  | cons x xs ih =>
    by_cases hx : x.id = b'.id
    · have h1 : (b'.id == id) = false := by simpa using (Ne.symm hid)
      have h2 : (x.id == id) = false := by rw [hx]; exact h1
      rw [List.map_cons, if_pos hx, List.find?_cons, h1, List.find?_cons, h2]
      exact ih
    · rw [List.map_cons, if_neg hx, List.find?_cons, List.find?_cons, ih]

theorem findBooking_saveBooking_ne (db : Db) (b' : Booking) (id : Id) (hid : id ≠ b'.id) :
    findBooking (saveBooking db b') id = findBooking db id :=
  find?_map_replace_ne id b' hid db.bookings

theorem validRating_iff (rating : Option Int) :
    (!truthyNum rating || decide (rating.getD 0 < 1) || decide (rating.getD 0 > 5)) = false ↔
      ∃ r, rating = some r ∧ 1 ≤ r ∧ r ≤ 5 := by
  cases rating with
  | none => simp [truthyNum]
  | some r =>
    simp only [truthyNum, Option.getD_some, Bool.or_eq_false_iff, Bool.not_eq_false',
      bne_iff_ne, ne_eq, decide_eq_false_iff_not, not_lt, gt_iff_lt, Option.some.injEq,
      exists_eq_left']
    constructor
    · rintro ⟨⟨_, h1⟩, h2⟩
      exact ⟨h1, h2⟩
    · rintro ⟨h1, h2⟩
      exact ⟨⟨by omega, h1⟩, h2⟩

theorem findBooking_congr {db db' : Db} (h : db'.bookings = db.bookings) (id : Id) :
    findBooking db' id = findBooking db id := by
  unfold findBooking
  rw [h]

/-- Saving a found booking with the same visibility flag keeps the flag of
every stored booking. -/
theorem saveBooking_flag_kept {db : Db} {id : Id} {b b' : Booking}
    (hfind : findBooking db id = some b) (hid : b'.id = id)
    (hflag : b'.providerCanSeeContact = b.providerCanSeeContact) :
    ∀ i x, findBooking db i = some x →
      ∃ x', findBooking (saveBooking db b') i = some x' ∧
        x'.providerCanSeeContact = x.providerCanSeeContact := by
  intro i x hx
  by_cases hi : i = id
  · subst hi
    rw [hfind] at hx
    cases hx
    exact ⟨b', findBooking_saveBooking hfind hid, hflag⟩
  · rw [findBooking_saveBooking_ne db b' i (by rw [hid]; exact hi)]
    exact ⟨x, hx, rfl⟩

theorem updateBookingStatus_rejected (env : Env) (db : Db) (user : User) (id : Id)
    (status note : Option String)
    (h : (updateBookingStatus env db user id status note).2.status ≠ 200) :
    (updateBookingStatus env db user id status note).1 = db := by
  revert h
  unfold updateBookingStatus
  split
  · intro _; rfl
  · dsimp only
    split
    · intro _; rfl
    · split
      · intro _; rfl
      · simp

theorem cancelBooking_rejected (env : Env) (db : Db) (user : User) (id : Id)
    (reason : Option String) (h : (cancelBooking env db user id reason).2.status ≠ 200) :
    (cancelBooking env db user id reason).1 = db := by
  revert h
  unfold cancelBooking
  split
  · intro _; rfl
  · split
    · intro _; rfl
    · split
      · intro _; rfl
      · split
        · intro _; rfl
        · simp

/-- Every rateBooking call leaves the database as it was and answers an error:
the test of line 610 holds for every booking that reaches it. -/
theorem rateBooking_unchanged (env : Env) (db : Db) (user : User) (id : Id)
    (rating : Option Int) (comment : Option String) :
    (rateBooking env db user id rating comment).1 = db ∧
      (rateBooking env db user id rating comment).2.status ≠ 200 ∧
      (rateBooking env db user id rating comment).2.success = false ∧
      (rateBooking env db user id rating comment).2.data = none := by
  unfold rateBooking
  split
  · simp [Response.fail]
  · dsimp only
    split
    · simp [Response.fail]
    · split
      · simp [Response.fail]
      · split
        · simp [Response.fail]
        · split
          · simp [Response.fail]
          · rename_i h
            exact absurd rfl h

theorem createBooking_flag_kept (env : Env) (db : Db) (user : User) (req : BookingRequest)
    (id : Id) (b : Booking) (h : findBooking db id = some b) :
    findBooking (createBooking env db user req).1 id = some b := by
  rw [(createBooking_unchanged env db user req).1]
  exact h

theorem updateBookingStatus_flag_kept (env : Env) (db : Db) (user : User) (id : Id)
    (status note : Option String) (i : Id) (x : Booking) (h : findBooking db i = some x) :
    ∃ x', findBooking (updateBookingStatus env db user id status note).1 i = some x' ∧
      x'.providerCanSeeContact = x.providerCanSeeContact := by
  by_cases hs : (updateBookingStatus env db user id status note).2.status = 200
  · obtain ⟨target, b, _, _, hfind, _, _, hdb⟩ :=
      updateBookingStatus_ok env db user id status note hs
    have hid : b.id = id := findBooking_id hfind
    rw [findBooking_congr hdb]
    refine @saveBooking_flag_kept db id b _ hfind ?_ ?_ i x h
    · exact hid
    · rfl
  · rw [updateBookingStatus_rejected env db user id status note hs]
    exact ⟨x, h, rfl⟩

theorem cancelBooking_flag_kept (env : Env) (db : Db) (user : User) (id : Id)
    (reason : Option String) (i : Id) (x : Booking) (h : findBooking db i = some x) :
    ∃ x', findBooking (cancelBooking env db user id reason).1 i = some x' ∧
      x'.providerCanSeeContact = x.providerCanSeeContact := by
  by_cases hs : (cancelBooking env db user id reason).2.status = 200
  · obtain ⟨b, hfind, _, _, _, _, heq⟩ := cancelBooking_ok env db user id reason hs
    have hid : b.id = id := findBooking_id hfind
    rw [heq]
    dsimp only
    refine @saveBooking_flag_kept db id b _ hfind ?_ ?_ i x h
    · exact hid
    · rfl
  · rw [cancelBooking_rejected env db user id reason hs]
    exact ⟨x, h, rfl⟩

theorem rateBooking_flag_kept (env : Env) (db : Db) (user : User) (id : Id)
    (rating : Option Int) (comment : Option String) (i : Id) (x : Booking)
    (h : findBooking db i = some x) :
    ∃ x', findBooking (rateBooking env db user id rating comment).1 i = some x' ∧
      x'.providerCanSeeContact = x.providerCanSeeContact := by
  rw [(rateBooking_unchanged env db user id rating comment).1]
  exact ⟨x, h, rfl⟩

theorem revealClientContact_flag (db : Db) (id : Id) (i : Id) (x : Booking)
    (h : findBooking db i = some x) :
    ∃ x', findBooking (revealClientContact db id).1 i = some x' ∧
      (x'.providerCanSeeContact = true ∨
        (i ≠ id ∧ x'.providerCanSeeContact = x.providerCanSeeContact)) := by
  unfold revealClientContact
  cases hfind : findBooking db id with
  | none =>
    refine ⟨x, h, Or.inr ⟨?_, rfl⟩⟩
    rintro rfl
    rw [hfind] at h
    cases h
  | some b =>
    dsimp only
    have hid : b.id = id := findBooking_id hfind
    by_cases hi : i = id
    · subst hi
      exact ⟨_, findBooking_saveBooking hfind hid, Or.inl rfl⟩
    · rw [findBooking_saveBooking_ne db _ i (by rw [hid]; exact hi)]
      exact ⟨x, h, Or.inr ⟨hi, rfl⟩⟩

theorem run_keeps_revealed (op : Operation) (db : Db) (i : Id) (x : Booking)
    (h : findBooking db i = some x) (hflag : x.providerCanSeeContact = true) :
    ∃ x', findBooking (op.run db) i = some x' ∧ x'.providerCanSeeContact = true := by
  cases op with
  | create env user req => exact ⟨x, createBooking_flag_kept env db user req i x h, hflag⟩
  | updateStatus env user id status note =>
    obtain ⟨x', h1, h2⟩ := updateBookingStatus_flag_kept env db user id status note i x h
    exact ⟨x', h1, h2.trans hflag⟩
  | cancel env user id reason =>
    obtain ⟨x', h1, h2⟩ := cancelBooking_flag_kept env db user id reason i x h
    exact ⟨x', h1, h2.trans hflag⟩
  | rate env user id rating comment =>
    obtain ⟨x', h1, h2⟩ := rateBooking_flag_kept env db user id rating comment i x h
    exact ⟨x', h1, h2.trans hflag⟩
  | revealContact id =>
    obtain ⟨x', h1, h2⟩ := revealClientContact_flag db id i x h
    rcases h2 with h2 | ⟨_, h2⟩
    · exact ⟨x', h1, h2⟩
    · exact ⟨x', h1, h2.trans hflag⟩
  | read => exact ⟨x, h, hflag⟩

/-- C12: a newly created booking has `providerCanSeeContact` false;
revealClientContact sets it to true; createBooking, updateBookingStatus,
cancelBooking and rateBooking leave the flag of every stored booking unchanged
(the reads write nothing); hence a flag that is true stays true under every
sequence of operations. -/
theorem providerCanSeeContact_invariant :
    (∀ env db user req, (createBooking env db user req).2.status = 201 →
      ∃ b, (createBooking env db user req).2.data = some b ∧
        b ∈ (createBooking env db user req).1.bookings ∧ b.providerCanSeeContact = false) ∧
    (∀ env db doc b, bookingCreate env db doc = some b → b.providerCanSeeContact = false) ∧
    (∀ db id b, findBooking db id = some b →
      ∃ b', findBooking (revealClientContact db id).1 id = some b' ∧
        b'.providerCanSeeContact = true ∧
        (revealClientContact db id).2.status = 200) ∧
    (∀ db i x, findBooking db i = some x →
      (∀ env user req, findBooking (createBooking env db user req).1 i = some x) ∧
      (∀ env user id status note,
        ∃ x', findBooking (updateBookingStatus env db user id status note).1 i = some x' ∧
          x'.providerCanSeeContact = x.providerCanSeeContact) ∧
      (∀ env user id reason,
        ∃ x', findBooking (cancelBooking env db user id reason).1 i = some x' ∧
          x'.providerCanSeeContact = x.providerCanSeeContact) ∧
      (∀ env user id rating comment,
        ∃ x', findBooking (rateBooking env db user id rating comment).1 i = some x' ∧
          x'.providerCanSeeContact = x.providerCanSeeContact) ∧
      Operation.run db Operation.read = db) ∧
    (∀ (ops : List Operation) db i x, findBooking db i = some x →
      x.providerCanSeeContact = true →
      ∃ x', findBooking (runAll db ops) i = some x' ∧ x'.providerCanSeeContact = true) := by
  refine ⟨?_, ?_, ?_, ?_, ?_⟩
  · intro env db user req hs
    exact absurd hs (createBooking_unchanged env db user req).2.1
  · intro env db doc b hb
    exact (bookingCreate_fields hb).2.2.2.2.2.2.2.2.1
  · intro db id b hfind
    have hid : b.id = id := findBooking_id hfind
    unfold revealClientContact
    rw [hfind]
    exact ⟨_, findBooking_saveBooking hfind hid, rfl, rfl⟩
  · intro db i x h
    exact ⟨fun env user req => createBooking_flag_kept env db user req i x h,
      fun env user id status note => updateBookingStatus_flag_kept env db user id status note i x h,
      fun env user id reason => cancelBooking_flag_kept env db user id reason i x h,
      fun env user id rating comment =>
        rateBooking_flag_kept env db user id rating comment i x h,
      rfl⟩
  · intro ops
    induction ops with
    | nil => intro db i x h hflag; exact ⟨x, h, hflag⟩
    | cons op rest ih =>
      intro db i x h hflag
      obtain ⟨x', h', hflag'⟩ := run_keeps_revealed op db i x h hflag
      exact ih (op.run db) i x' h' hflag'

/-- Witness of C12: a revealed booking stays revealed through a status update,
a cancellation attempt, a rating and a new booking. -/
theorem providerCanSeeContact_invariant_witness :
    ∃ x', findBooking
        (runAll (bookingDb "confirmed" true)
          [Operation.updateStatus sampleEnv sampleAdmin 100 (some "completed") none,
           Operation.cancel sampleEnv sampleUser 100 none,
           Operation.rate sampleEnv sampleUser 100 (some 4) none,
           Operation.create sampleEnv sampleUser (sampleRequest [plainLine 1]),
           Operation.read]) 100 = some x' ∧
      x'.providerCanSeeContact = true :=
  providerCanSeeContact_invariant.2.2.2.2 _ (bookingDb "confirmed" true) 100
    (sampleBooking "confirmed" true) (by decide) rfl

theorem rateBooking_invalid (env : Env) (db : Db) (user : User) (id : Id)
    (rating : Option Int) (comment : Option String)
    (h : ¬ ∃ r, rating = some r ∧ 1 ≤ r ∧ r ≤ 5) :
    rateBooking env db user id rating comment = (db, Response.fail 400 ratingMessage) := by
  have hv : (!truthyNum rating || decide (rating.getD 0 < 1) || decide (rating.getD 0 > 5))
      = true := by
    cases hb : (!truthyNum rating || decide (rating.getD 0 < 1) || decide (rating.getD 0 > 5))
    · exact absurd ((validRating_iff rating).mp hb) h
    · rfl
  unfold rateBooking
  rw [if_pos hv]

/-- The checks of rateBooking that follow the rating validation and the lookup. -/
theorem rateBooking_found (env : Env) (db : Db) (user : User) (id : Id) (r : Int)
    (comment : Option String) (b : Booking) (h1 : 1 ≤ r) (h5 : r ≤ 5)
    (hfind : findBooking db id = some b) :
    (b.client ≠ user.id →
      rateBooking env db user id (some r) comment =
        (db, Response.fail 403 "Non autorisé à évaluer cette réservation")) ∧
    (b.client = user.id → b.status ≠ "completed" →
      rateBooking env db user id (some r) comment =
        (db, Response.fail 400 notCompletedMessage)) ∧
    (b.client = user.id → b.status = "completed" →
      rateBooking env db user id (some r) comment =
        (db, Response.fail 400 alreadyRatedMessage)) := by
  have hv := (validRating_iff (some r)).mpr ⟨r, rfl, h1, h5⟩
  refine ⟨?_, ?_, ?_⟩
  · intro hc
    unfold rateBooking
    rw [if_neg (by rw [hv]; decide)]
    simp [hfind, hc]
  · intro hc hs
    unfold rateBooking
    rw [if_neg (by rw [hv]; decide)]
    simp [hfind, hc, hs]
  · intro hc hs
    unfold rateBooking
    rw [if_neg (by rw [hv]; decide)]
    simp [hfind, hc, hs, truthyNested]

/-- C13: no rateBooking call persists `clientRating`, so there is no "second
call after a first one that persisted the rating": every call leaves the
database unchanged and answers an error, and the first call of the owning
client on the completed, never-rated sample booking is itself answered by the
already-rated 400. -/
theorem rateBooking_first_call_rejected :
    (∀ (env : Env) (db : Db) (user : User) (id : Id) (rating : Option Int)
        (comment : Option String),
      (rateBooking env db user id rating comment).1 = db ∧
        (rateBooking env db user id rating comment).2.status ≠ 200) ∧
    (sampleBooking "completed" false).clientRating = none ∧
    rateBooking sampleEnv (bookingDb "completed" false) sampleUser 100 (some 4) none =
      (bookingDb "completed" false, Response.fail 400 alreadyRatedMessage) ∧
    (findBooking
      (rateBooking sampleEnv (bookingDb "completed" false) sampleUser 100 (some 4) none).1
      100).map (fun b => b.clientRating) = some none := by
  refine ⟨fun env db user id rating comment =>
    ⟨(rateBooking_unchanged env db user id rating comment).1,
     (rateBooking_unchanged env db user id rating comment).2.1⟩, rfl, ?_, ?_⟩
  · exact ((rateBooking_found sampleEnv (bookingDb "completed" false) sampleUser 100 4 none
      (sampleBooking "completed" false) (by decide) (by decide) (by decide)).2.2
      (by decide) (by decide))
  · rw [(rateBooking_unchanged _ _ _ _ _ _).1]
    decide

/-- C14: rateBooking checks its preconditions in order, each failure leaving
the database unchanged: a rating outside [1,5] gives the validation error; a
caller who is not the client of the booking gives 403; a booking that is not
completed gives the not-completed error.  When these three hold the call does
not succeed: whether or not the booking has a `clientRating`, the test of line
610 holds and the answer is the already-rated 400, with nothing set. -/
theorem rateBooking_preconditions (env : Env) (db : Db) (user : User) (id : Id)
    (rating : Option Int) (comment : Option String) :
    ((¬ ∃ r, rating = some r ∧ 1 ≤ r ∧ r ≤ 5) →
      rateBooking env db user id rating comment = (db, Response.fail 400 ratingMessage)) ∧
    (∀ r b, rating = some r → 1 ≤ r → r ≤ 5 → findBooking db id = some b →
      (b.client ≠ user.id →
        rateBooking env db user id rating comment =
          (db, Response.fail 403 "Non autorisé à évaluer cette réservation")) ∧
      (b.client = user.id → b.status ≠ "completed" →
        rateBooking env db user id rating comment =
          (db, Response.fail 400 notCompletedMessage)) ∧
      (b.client = user.id → b.status = "completed" →
        rateBooking env db user id rating comment =
          (db, Response.fail 400 alreadyRatedMessage) ∧
        findBooking (rateBooking env db user id rating comment).1 id = some b)) := by
  refine ⟨rateBooking_invalid env db user id rating comment, ?_⟩
  rintro r b rfl h1 h5 hfind
  obtain ⟨g1, g2, g3⟩ := rateBooking_found env db user id r comment b h1 h5 hfind
  refine ⟨g1, g2, ?_⟩
  intro hc hs
  refine ⟨g3 hc hs, ?_⟩
  rw [g3 hc hs]
  exact hfind

/-- Witness of C14: the client rates the completed, never-rated sample booking
4 and is answered that the booking is already rated. -/
theorem rateBooking_preconditions_witness :
    (sampleBooking "completed" false).clientRating = none ∧
    rateBooking sampleEnv (bookingDb "completed" false) sampleUser 100 (some 4) (some "bien") =
      (bookingDb "completed" false, Response.fail 400 alreadyRatedMessage) ∧
    findBooking
        (rateBooking sampleEnv (bookingDb "completed" false) sampleUser 100 (some 4)
          (some "bien")).1 100 = some (sampleBooking "completed" false) :=
  ⟨rfl,
   ((rateBooking_preconditions sampleEnv (bookingDb "completed" false) sampleUser 100
      (some 4) (some "bien")).2 4 (sampleBooking "completed" false) rfl (by decide) (by decide)
      (by decide)).2.2 (by decide) (by decide)⟩

/-- C15: the rateBooking call of the owning client with rating 4 on the
completed, never-rated sample booking of provider 7 is answered by the
already-rated 400 and writes no provider: the ratings of provider 7 stay empty
and its average stays 0. -/
theorem rateBooking_provider_rating_not_written :
    (rateBooking sampleEnv (bookingDb "completed" false) sampleUser 100 (some 4) none).2 =
      Response.fail 400 alreadyRatedMessage ∧
    (rateBooking sampleEnv (bookingDb "completed" false) sampleUser 100 (some 4) none).1.providers
      = (bookingDb "completed" false).providers ∧
    (findProvider
      (rateBooking sampleEnv (bookingDb "completed" false) sampleUser 100 (some 4) none).1 7).map
        (fun p => (p.ratings, p.averageRating)) = some ([], 0) := by
  have h := (rateBooking_unchanged sampleEnv (bookingDb "completed" false) sampleUser 100
    (some 4) none).1
  refine ⟨by decide, by rw [h], ?_⟩
  rw [h]
  rfl

/-- C16: the rateBooking call of the owning client with rating 4 on the
completed, never-rated sample booking, whose one line references service 1, is
answered by the already-rated 400 and writes no service: the ratings of
service 1 stay empty. -/
theorem rateBooking_service_ratings_not_written :
    (sampleBooking "completed" false).services.map (fun i => i.service) = [1] ∧
    (rateBooking sampleEnv (bookingDb "completed" false) sampleUser 100 (some 4) none).2.status
      = 400 ∧
    (rateBooking sampleEnv (bookingDb "completed" false) sampleUser 100 (some 4) none).1.services
      = (bookingDb "completed" false).services ∧
    (findService
      (rateBooking sampleEnv (bookingDb "completed" false) sampleUser 100 (some 4) none).1 1).map
        (fun s => s.ratings) = some [] := by
  have h := (rateBooking_unchanged sampleEnv (bookingDb "completed" false) sampleUser 100
    (some 4) none).1
  refine ⟨rfl, by decide, by rw [h], ?_⟩
  rw [h]
  rfl

/-! ## Properties of cancelBooking -/

/-- C17: cancelBooking called by the owning client on a booking that is
completed, cancelled or in progress is rejected with a 400 error and leaves
the database, hence the status and the statusHistory of the booking,
unchanged. -/
theorem cancelBooking_terminal (env : Env) (db : Db) (user : User) (id : Id)
    (reason : Option String) (b : Booking) (hfind : findBooking db id = some b)
    (hclient : b.client = user.id)
    (hstatus : b.status = "completed" ∨ b.status = "cancelled" ∨ b.status = "in_progress") :
    (cancelBooking env db user id reason).1 = db ∧
    (cancelBooking env db user id reason).2.status = 400 ∧
    (cancelBooking env db user id reason).2.success = false ∧
    findBooking (cancelBooking env db user id reason).1 id = some b ∧
    ((b.status = "completed" ∨ b.status = "cancelled") →
      (cancelBooking env db user id reason).2 =
        Response.fail 400
          "Cette réservation ne peut pas être annulée (déjà terminée ou annulée)") ∧
    (b.status = "in_progress" →
      (cancelBooking env db user id reason).2 =
        Response.fail 400
          "Impossible d\x27annuler une réservation en cours. Contactez l\x27administrateur.") := by
  have hdone : (b.status = "completed" ∨ b.status = "cancelled") →
      cancelBooking env db user id reason =
        (db, Response.fail 400
          "Cette réservation ne peut pas être annulée (déjà terminée ou annulée)") := by
    intro hs
    unfold cancelBooking
    rcases hs with hs | hs <;> simp [hfind, hclient, hs]
  have hprog : b.status = "in_progress" →
      cancelBooking env db user id reason =
        (db, Response.fail 400
          "Impossible d\x27annuler une réservation en cours. Contactez l\x27administrateur.") := by
    intro hs
    unfold cancelBooking
    simp [hfind, hclient, hs]
  have hall : (cancelBooking env db user id reason).1 = db ∧
      (cancelBooking env db user id reason).2.status = 400 ∧
      (cancelBooking env db user id reason).2.success = false := by
    rcases hstatus with hs | hs | hs
    · rw [hdone (Or.inl hs)]; exact ⟨rfl, rfl, rfl⟩
    · rw [hdone (Or.inr hs)]; exact ⟨rfl, rfl, rfl⟩
    · rw [hprog hs]; exact ⟨rfl, rfl, rfl⟩
  refine ⟨hall.1, hall.2.1, hall.2.2, ?_, ?_, ?_⟩
  · rw [hall.1]; exact hfind
  · intro hs; rw [hdone hs]
  · intro hs; rw [hprog hs]

/-- Witness of C17: the client tries to cancel the sample booking in progress. -/
theorem cancelBooking_terminal_witness :
    (cancelBooking sampleEnv (bookingDb "in_progress" false) sampleUser 100 none).1 =
      bookingDb "in_progress" false ∧
    (cancelBooking sampleEnv (bookingDb "in_progress" false) sampleUser 100 none).2.status
      = 400 :=
  ⟨(cancelBooking_terminal sampleEnv (bookingDb "in_progress" false) sampleUser 100 none
      (sampleBooking "in_progress" false) (by decide) rfl (Or.inr (Or.inr rfl))).1,
   (cancelBooking_terminal sampleEnv (bookingDb "in_progress" false) sampleUser 100 none
      (sampleBooking "in_progress" false) (by decide) rfl (Or.inr (Or.inr rfl))).2.1⟩

/-- C18 (as stated, refuted): the client cancels a booking whose status is
`no_show`; the call is answered 200 and the stored status becomes `cancelled`. -/
theorem cancelBooking_allowed_counterexample :
    (sampleBooking "no_show" false).client = sampleUser.id ∧
      (cancelBooking sampleEnv (bookingDb "no_show" false) sampleUser 100 none).2.status = 200 ∧
      (cancelBooking sampleEnv (bookingDb "no_show" false) sampleUser 100 none).1.bookings.map
        (fun b => b.status) = ["cancelled"] := by
  decide

/-- C18 (amended): a cancellation by the owning client succeeds, moving the
booking to `cancelled`, exactly when the current status is none of
`completed`, `cancelled` and `in_progress`: it succeeds from `pending`,
`confirmed` and `no_show`, and is rejected from the three others. -/
theorem cancelBooking_allowed (env : Env) (db : Db) (user : User) (id : Id)
    (reason : Option String) (b : Booking) (hfind : findBooking db id = some b)
    (hclient : b.client = user.id) :
    ((cancelBooking env db user id reason).2.status = 200 ↔
      (b.status ≠ "completed" ∧ b.status ≠ "cancelled" ∧ b.status ≠ "in_progress")) ∧
    ((b.status = "pending" ∨ b.status = "confirmed" ∨ b.status = "no_show") →
      (cancelBooking env db user id reason).2.status = 200 ∧
      ∃ after, findBooking (cancelBooking env db user id reason).1 id = some after ∧
        after.status = "cancelled") ∧
    ((b.status = "in_progress" ∨ b.status = "completed" ∨ b.status = "cancelled") →
      (cancelBooking env db user id reason).2.status = 400 ∧
      (cancelBooking env db user id reason).1 = db) := by
  have hid : b.id = id := findBooking_id hfind
  have hpass : b.status ≠ "completed" → b.status ≠ "cancelled" → b.status ≠ "in_progress" →
      cancelBooking env db user id reason =
        (saveBooking db (b.updateStatus "cancelled" user.id (cancelNote reason) env.now),
         { status := 200
           success := true
           message := "Réservation annulée avec succès"
           data := some (b.updateStatus "cancelled" user.id (cancelNote reason) env.now) }) := by
    intro h1 h2 h3
    unfold cancelBooking
    simp [hfind, hclient, h1, h2, h3]
  have hfail : (b.status = "in_progress" ∨ b.status = "completed" ∨ b.status = "cancelled") →
      (cancelBooking env db user id reason).2.status = 400 ∧
      (cancelBooking env db user id reason).1 = db := by
    intro hs
    unfold cancelBooking
    rcases hs with hs | hs | hs <;> simp [hfind, hclient, hs, Response.fail]
  refine ⟨⟨?_, ?_⟩, ?_, hfail⟩
  · intro h200
    obtain ⟨b', hfind', _, h1, h2, h3, _⟩ := cancelBooking_ok env db user id reason h200
    rw [hfind] at hfind'
    cases hfind'
    exact ⟨h1, h2, h3⟩
  · rintro ⟨h1, h2, h3⟩
    rw [hpass h1 h2 h3]
  · intro hs
    have hne : b.status ≠ "completed" ∧ b.status ≠ "cancelled" ∧ b.status ≠ "in_progress" := by
      rcases hs with hs | hs | hs <;> rw [hs] <;> decide
    rw [hpass hne.1 hne.2.1 hne.2.2]
    exact ⟨rfl, _, findBooking_saveBooking hfind hid, rfl⟩

/-- Witness of C18 (amended): the client cancels the confirmed sample booking. -/
theorem cancelBooking_allowed_witness :
    (cancelBooking sampleEnv (bookingDb "confirmed" false) sampleUser 100 none).2.status = 200 ∧
    ∃ after,
      findBooking (cancelBooking sampleEnv (bookingDb "confirmed" false) sampleUser 100 none).1
        100 = some after ∧
      after.status = "cancelled" :=
  (cancelBooking_allowed sampleEnv (bookingDb "confirmed" false) sampleUser 100 none
    (sampleBooking "confirmed" false) (by decide) rfl).2.1 (Or.inr (Or.inl rfl))

/-- C19: cancelBooking called by a user who is not the client of the booking
is rejected with 403 whatever the status of the booking, and leaves the
database unchanged. -/
theorem cancelBooking_not_owner (env : Env) (db : Db) (user : User) (id : Id)
    (reason : Option String) (b : Booking) (hfind : findBooking db id = some b)
    (hclient : b.client ≠ user.id) :
    cancelBooking env db user id reason =
        (db, Response.fail 403 "Non autorisé à annuler cette réservation") ∧
      findBooking (cancelBooking env db user id reason).1 id = some b := by
  have h : cancelBooking env db user id reason =
      (db, Response.fail 403 "Non autorisé à annuler cette réservation") := by
    unfold cancelBooking
    simp [hfind, hclient]
  rw [h]
  exact ⟨rfl, hfind⟩

/-- Witness of C19: the administrator is not the client of the sample booking. -/
theorem cancelBooking_not_owner_witness :
    cancelBooking sampleEnv (bookingDb "pending" false) sampleAdmin 100 (some "doublon") =
      (bookingDb "pending" false,
        Response.fail 403 "Non autorisé à annuler cette réservation") :=
  (cancelBooking_not_owner sampleEnv (bookingDb "pending" false) sampleAdmin 100
    (some "doublon") (sampleBooking "pending" false) (by decide) (by decide)).1

/-- The fixed text that starts the note of a client cancellation. -/
theorem cancelNote_eq (reason : Option String) :
    ((reason = none ∨ reason = some "") → cancelNote reason = "Annulée par le client") ∧
    (∀ r, reason = some r → r ≠ "" →
      cancelNote reason = "Annulée par le client" ++ ". Raison: " ++ r) := by
  constructor
  · rintro (rfl | rfl) <;> rfl
  · rintro r rfl hr
    have hlit : "Annulée par le client" ++ ". Raison: " = "Annulée par le client. Raison: " := by
      decide
    simp [cancelNote, truthyStr, hr, hlit]

/-- C20: on a successful cancelBooking the status becomes `cancelled` and the
note of the transition is the fixed text alone when no reason (or an empty
one) is supplied, and the fixed text followed by `. Raison: ` and the reason
otherwise, so that a non-empty reason is a substring of the note. -/
theorem cancelBooking_note (env : Env) (db : Db) (user : User) (id : Id)
    (reason : Option String)
    (h : (cancelBooking env db user id reason).2.status = 200) :
    ∃ before after note, findBooking db id = some before ∧
      findBooking (cancelBooking env db user id reason).1 id = some after ∧
      (cancelBooking env db user id reason).2.data = some after ∧
      after.status = "cancelled" ∧
      after.statusHistory = before.statusHistory ++
        [{ status := "cancelled", changedBy := user.id, changedAt := env.now, note := note }] ∧
      ((reason = none ∨ reason = some "") → note = "Annulée par le client") ∧
      (∀ r, reason = some r → r ≠ "" →
        note = "Annulée par le client" ++ ". Raison: " ++ r ∧
        ∃ before_reason after_reason, note = before_reason ++ r ++ after_reason) := by
  obtain ⟨b, hfind, _, _, _, _, heq⟩ := cancelBooking_ok env db user id reason h
  have hid : b.id = id := findBooking_id hfind
  rw [heq]
  refine ⟨b, _, cancelNote reason, hfind, findBooking_saveBooking hfind hid, rfl, rfl, ?_,
    (cancelNote_eq reason).1, ?_⟩
  · simp [Booking.updateStatus]
  · intro r hr hne
    have hnote := (cancelNote_eq reason).2 r hr hne
    refine ⟨hnote, "Annulée par le client" ++ ". Raison: ", "", ?_⟩
    rw [hnote, String.append_empty]

/-- Witness of C20: a cancellation with the reason `schedule conflict`. -/
theorem cancelBooking_note_witness :
    (cancelBooking sampleEnv (bookingDb "pending" false) sampleUser 100
        (some "schedule conflict")).2.status = 200 ∧
    ∃ before after note, findBooking (bookingDb "pending" false) 100 = some before ∧
      findBooking (cancelBooking sampleEnv (bookingDb "pending" false) sampleUser 100
        (some "schedule conflict")).1 100 = some after ∧
      (cancelBooking sampleEnv (bookingDb "pending" false) sampleUser 100
        (some "schedule conflict")).2.data = some after ∧
      after.status = "cancelled" ∧
      after.statusHistory = before.statusHistory ++
        [{ status := "cancelled", changedBy := sampleUser.id, changedAt := sampleEnv.now
           note := note }] ∧
      ((some "schedule conflict" = none ∨ some "schedule conflict" = some "") →
        note = "Annulée par le client") ∧
      (∀ r, some "schedule conflict" = some r → r ≠ "" →
        note = "Annulée par le client" ++ ". Raison: " ++ r ∧
        ∃ before_reason after_reason, note = before_reason ++ r ++ after_reason) :=
  ⟨by decide,
   cancelBooking_note sampleEnv (bookingDb "pending" false) sampleUser 100
    (some "schedule conflict") (by decide)⟩

/-! ## The path of createBooking through its checks -/

/-- What remains of createBooking once the line, schedule, location, count and
single-provider checks have passed and the provider is found. -/
theorem createBooking_passes (env : Env) (db : Db) (user : User) (req : BookingRequest)
    (s0 : RequestedLine) (ss : List RequestedLine) (p0 provider : ServiceProvider)
    (hservices : req.services = some (s0 :: ss))
    (hdate : truthyStr req.scheduledDate = true) (htime : truthyStr req.scheduledTime = true)
    (hloc : truthyStr (req.serviceLocation.bind (fun l => l.type)) = true)
    (hcount : (findServiceDetails db ((s0 :: ss).map (fun s => s.service))).length
      = (s0 :: ss).length)
    (hhead : (findServiceDetails db ((s0 :: ss).map (fun s => s.service))).head?.bind
      (fun sd => sd.provider) = some p0)
    (hall : allSameProvider p0.id (findServiceDetails db ((s0 :: ss).map (fun s => s.service)))
      = some true)
    (hprov : findProvider db p0.id = some provider) :
    createBooking env db user req =
      if !provider.isActive || provider.isSuspended then
        (db, Response.fail 400 providerUnavailableMessage)
      else
        match servicesWithPrices (findServiceDetails db ((s0 :: ss).map (fun s => s.service)))
            (s0 :: ss) 0 with
        | none => (db, createError)
        | some (lines, serviceTotal) =>
          match bookingCreate env db (bookingDocument user req p0.id lines serviceTotal) with
          | none => (db, createError)
          | some booking =>
            ({ db with
                bookings := db.bookings ++ [booking]
                users := pushUserBooking db.users user.id booking.id
                services := ((s0 :: ss).map (fun s => s.service)).foldl incBookingCount
                  db.services },
             { status := 201
               success := true
               message := "Réservation créée avec succès. En attente de confirmation de l\x27administrateur."
               data := some booking }) := by
  unfold createBooking
  rw [hservices]
  dsimp only
  rw [if_neg (by simp [hdate, htime]), if_neg (by simp [hloc]), if_neg (by simpa using hcount),
    hhead]
  dsimp only
  rw [hall]
  dsimp only
  rw [hprov]

/-- C22: createBooking persists no booking.  The document it hands to
`Booking.create` carries no `bookingNumber`, which the schema requires, so the
call throws on every request that reaches it: every createBooking call leaves
the database unchanged and answers an error, and the one-line request on the
available service 1 is answered by the 500 of the `catch` block.  (With a
`bookingNumber` the same document is stored with status `pending` and the
empty `statusHistory` of the schema default.) -/
theorem createBooking_never_persists :
    (∀ (env : Env) (db : Db) (user : User) (req : BookingRequest),
      (createBooking env db user req).1 = db ∧ (createBooking env db user req).2.status ≠ 201 ∧
        (createBooking env db user req).2.data = none) ∧
    createBooking sampleEnv sampleDb sampleUser (sampleRequest [plainLine 1]) =
      (sampleDb, createError) ∧
    createError.status = 500 ∧
    sampleDocument.bookingNumber = none ∧
    bookingCreate sampleEnv sampleDb sampleDocument = none ∧
    (bookingCreate sampleEnv sampleDb
      { sampleDocument with bookingNumber := some "BK-20250001" }).map
      (fun b => (b.status, b.statusHistory)) = some ("pending", []) := by
  refine ⟨fun env db user req =>
    ⟨(createBooking_unchanged env db user req).1, (createBooking_unchanged env db user req).2.1,
     (createBooking_unchanged env db user req).2.2.2⟩,
    createBooking_eq_of_response (by decide), rfl, rfl, by decide, by decide⟩

/-- C23: a request without a location type is answered by the 400 of line 38,
but the three recognised tags are checked only by the schema inside
`Booking.create`, whose throw is answered by the 500 of the `catch` block: the
otherwise valid request with the tag `moon` gets 500, not 400, and nothing is
persisted. -/
theorem createBooking_location :
    (∀ (env : Env) (db : Db) (user : User) (req : BookingRequest),
      truthyStr (req.serviceLocation.bind (fun l => l.type)) = false →
      (createBooking env db user req).2.status = 400 ∧
      (createBooking env db user req).2.success = false ∧
      (createBooking env db user req).1 = db) ∧
    (∀ (env : Env) (db : Db) (doc : BookingDocument) (loc : ServiceLocation),
      doc.serviceLocation = some loc → loc.type.getD "" ∉ locationTypes →
      bookingCreate env db doc = none) ∧
    "moon" ∉ locationTypes ∧
    createBooking sampleEnv sampleDb sampleUser unknownLocationRequest =
      (sampleDb, createError) ∧
    createError.status = 500 ∧ createError.status ≠ 400 := by
  refine ⟨?_, ?_, by decide, createBooking_eq_of_response (by decide), rfl, by decide⟩
  · intro env db user req hloc
    unfold createBooking
    split
    · exact ⟨rfl, rfl, rfl⟩
    · exact ⟨rfl, rfl, rfl⟩
    · dsimp only
      split
      · exact ⟨rfl, rfl, rfl⟩
      · rw [if_pos (by simp [hloc])]
        exact ⟨rfl, rfl, rfl⟩
  · intro env db doc loc hloc hnot
    cases h : bookingCreate env db doc with
    | none => rfl
    | some booking =>
      obtain ⟨_, _, _, _, _, _, _, _, _, loc', hloc', hmem⟩ := bookingCreate_fields h
      rw [hloc] at hloc'
      cases hloc'
      exact absurd hmem hnot

/-- Witness of C23: with a `bookingNumber` supplied, the document of the request
with the tag `moon` still fails the validation of `Booking.create`, and the
document with the tag `client_address` passes it. -/
theorem createBooking_location_witness :
    bookingCreate sampleEnv sampleDb
        { sampleDocument with
            bookingNumber := some "BK-20250001"
            serviceLocation := unknownLocationRequest.serviceLocation } = none ∧
    (bookingCreate sampleEnv sampleDb
      { sampleDocument with bookingNumber := some "BK-20250001" }).isSome = true :=
  ⟨createBooking_location.2.1 sampleEnv sampleDb _
      { type := some "moon", address := none, city := none, district := none
        instructions := none } rfl (by decide),
   by decide⟩

/-! ## Further properties of updateBookingStatus and createBooking -/

/-- C21: for an existing booking that is not completed and any of the six
statuses as target, updateBookingStatus answers 200 and the stored status is
the target; a target outside the six statuses (or none) is rejected with the
400 error that lists the six values, whether or not the booking exists. -/
theorem updateBookingStatus_any_target (env : Env) (db : Db) (user : User) (id : Id)
    (note : Option String) :
    (∀ b target, findBooking db id = some b → b.status ≠ "completed" →
      target ∈ validStatuses →
      (updateBookingStatus env db user id (some target) note).2.status = 200 ∧
      ∃ after, findBooking (updateBookingStatus env db user id (some target) note).1 id
          = some after ∧
        (updateBookingStatus env db user id (some target) note).2.data = some after ∧
        after.status = target) ∧
    (∀ status, (∀ t, status = some t → t ∉ validStatuses) →
      updateBookingStatus env db user id status note =
        (db, Response.fail 400 invalidStatusMessage)) ∧
    invalidStatusMessage =
      "Statut invalide. Choisir parmi: pending, confirmed, in_progress, completed, cancelled, no_show" := by
  refine ⟨?_, ?_, by decide⟩
  · intro b target hfind hs hv
    have hid : b.id = id := findBooking_id hfind
    have hguard : (b.status == "completed" && target != "completed") = false := by
      simp [hs]
    have heq : updateBookingStatus env db user id (some target) note =
        (saveBooking
          (if (target == "completed" && b.status != "completed") = true then
            { db with providers := incCompletedBookings db.providers b.provider }
           else db)
          (b.updateStatus target user.id (orStr note "") env.now),
         { status := 200
           success := true
           message := "Statut mis à jour vers \"" ++ target ++ "\" avec succès"
           data := some (b.updateStatus target user.id (orStr note "") env.now) }) := by
      unfold updateBookingStatus
      rw [if_neg (by rw [validStatus_truthy hv]; decide)]
      dsimp only
      rw [hfind]
      dsimp only
      rw [Option.getD_some, if_neg (by rw [hguard]; decide)]
      rfl
    rw [heq]
    refine ⟨rfl, _, ?_, rfl, rfl⟩
    dsimp only
    have hfind' : findBooking
        (if (target == "completed" && b.status != "completed") = true then
          { db with providers := incCompletedBookings db.providers b.provider }
         else db) id = some b := by
      split
      · exact hfind
      · exact hfind
    exact findBooking_saveBooking hfind' hid
  · intro status hinvalid
    have hv : (!truthyStr status || !validStatuses.contains (status.getD "")) = true := by
      cases status with
      | none => rfl
      | some t =>
        have := hinvalid t rfl
        simp [this]
    unfold updateBookingStatus
    rw [if_pos hv]

/-- Witness of C21: a cancelled booking is moved back to pending. -/
theorem updateBookingStatus_any_target_witness :
    (updateBookingStatus sampleEnv (bookingDb "cancelled" false) sampleAdmin 100
        (some "pending") none).2.status = 200 ∧
    ∃ after, findBooking (updateBookingStatus sampleEnv (bookingDb "cancelled" false) sampleAdmin
        100 (some "pending") none).1 100 = some after ∧
      (updateBookingStatus sampleEnv (bookingDb "cancelled" false) sampleAdmin 100
        (some "pending") none).2.data = some after ∧
      after.status = "pending" :=
  (updateBookingStatus_any_target sampleEnv (bookingDb "cancelled" false) sampleAdmin 100 none).1
    (sampleBooking "cancelled" false) "pending" (by decide) (by decide) (by decide)

theorem head_provider_found {db : Db} {ids : List Id} {p0 : ServiceProvider}
    (hhead : (findServiceDetails db ids).head?.bind (fun sd => sd.provider) = some p0) :
    findProvider db p0.id = some p0 := by
  cases hsds : findServiceDetails db ids with
  | nil => rw [hsds] at hhead; simp at hhead
  | cons sd rest =>
    rw [hsds] at hhead
    have hp : sd.provider = some p0 := by simpa using hhead
    have hmem : sd ∈ findServiceDetails db ids := by rw [hsds]; exact List.mem_cons_self _ _
    obtain ⟨_, _, _, hsd⟩ := mem_findServiceDetails hmem
    rw [hp] at hsd
    rw [findProvider_id hsd.symm]
    exact hsd.symm

/-- C24: for a request that passes the line, schedule, location, count and
single-provider checks, createBooking answers the provider-unavailable error
if and only if the resolved provider has `isActive` false or `isSuspended`
true, and then nothing is persisted and no counter is changed. -/
theorem createBooking_provider_unavailable (env : Env) (db : Db) (user : User)
    (req : BookingRequest) (s0 : RequestedLine) (ss : List RequestedLine) (p0 : ServiceProvider)
    (hservices : req.services = some (s0 :: ss))
    (hdate : truthyStr req.scheduledDate = true) (htime : truthyStr req.scheduledTime = true)
    (hloc : truthyStr (req.serviceLocation.bind (fun l => l.type)) = true)
    (hcount : (findServiceDetails db ((s0 :: ss).map (fun s => s.service))).length
      = (s0 :: ss).length)
    (hhead : (findServiceDetails db ((s0 :: ss).map (fun s => s.service))).head?.bind
      (fun sd => sd.provider) = some p0)
    (hall : allSameProvider p0.id (findServiceDetails db ((s0 :: ss).map (fun s => s.service)))
      = some true) :
    findProvider db p0.id = some p0 ∧
    ((createBooking env db user req).2 = Response.fail 400 providerUnavailableMessage ↔
      (p0.isActive = false ∨ p0.isSuspended = true)) ∧
    ((p0.isActive = false ∨ p0.isSuspended = true) →
      createBooking env db user req = (db, Response.fail 400 providerUnavailableMessage)) := by
  have hprov := head_provider_found hhead
  have heq := createBooking_passes env db user req s0 ss p0 p0 hservices hdate htime hloc hcount
    hhead hall hprov
  have hbad : (p0.isActive = false ∨ p0.isSuspended = true) →
      createBooking env db user req = (db, Response.fail 400 providerUnavailableMessage) := by
    intro hp
    rw [heq, if_pos]
    rcases hp with hp | hp <;> simp [hp]
  refine ⟨hprov, ⟨?_, fun hp => by rw [hbad hp]⟩, hbad⟩
  intro hresp
  by_contra hgood
  have hact : p0.isActive = true ∧ p0.isSuspended = false := by
    cases h1 : p0.isActive <;> cases h2 : p0.isSuspended <;> simp [h1, h2] at hgood ⊢
  rw [heq, if_neg (by simp [hact.1, hact.2])] at hresp
  split at hresp
  · simp [createError, Response.fail] at hresp
  · split at hresp
    · simp [createError, Response.fail] at hresp
    · simp [Response.fail] at hresp

/-- Witness of C24: service 1 of the suspended provider 7. -/
theorem createBooking_provider_unavailable_witness :
    createBooking sampleEnv suspendedDb sampleUser (sampleRequest [plainLine 1]) =
      (suspendedDb, Response.fail 400 providerUnavailableMessage) :=
  (createBooking_provider_unavailable sampleEnv suspendedDb sampleUser
    (sampleRequest [plainLine 1]) (plainLine 1) []
    { id := 7, isActive := true, isSuspended := true, completedBookings := 0 }
    rfl (by decide) (by decide) (by decide) (by decide) (by decide) (by decide)).2.2
    (Or.inr rfl)

/-! ## Storage failures in createBooking and updateBookingStatus -/

/-- The bookkeeping writes of createBooking are never reached: with or without
a failing write, the controller is createBooking. -/
theorem createBookingWith_eq (fault : BookkeepingFault) (env : Env) (db : Db) (user : User)
    (req : BookingRequest) :
    createBookingWith fault env db user req = createBooking env db user req := by
  unfold createBookingWith createBooking
  simp only [bookingCreate_document]

/-- C25: createBooking never reaches its bookkeeping writes with a persisted
booking: `Booking.create` throws on the document, which carries no
`bookingNumber`, so the valid one-line request is answered by the 500 of the
`catch` block with nothing persisted, whichever bookkeeping write would fail.
The two writes themselves have no handler of their own: a throw of the history
link, or of an increment, is answered by the same 500. -/
theorem createBooking_bookkeeping_unreached :
    (∀ (fault : BookkeepingFault) (env : Env) (db : Db) (user : User) (req : BookingRequest),
      createBookingWith fault env db user req = createBooking env db user req ∧
      (createBookingWith fault env db user req).1 = db ∧
      (createBookingWith fault env db user req).2.status ≠ 201) ∧
    createBookingWith BookkeepingFault.userLink sampleEnv sampleDb sampleUser
      (sampleRequest [plainLine 1]) = (sampleDb, createError) ∧
    createBookingWith (BookkeepingFault.bookingCount 0) sampleEnv sampleDb sampleUser
      (sampleRequest [plainLine 1]) = (sampleDb, createError) ∧
    createError.status = 500 ∧
    (∀ (db : Db) (user : User) (booking : Booking) (serviceIds : List Id),
      bookkeeping BookkeepingFault.userLink db user booking serviceIds = (db, createError) ∧
      ∀ k, k < serviceIds.length →
        (bookkeeping (BookkeepingFault.bookingCount k) db user booking serviceIds).2
          = createError) := by
  refine ⟨?_, ?_, ?_, rfl, ?_⟩
  · intro fault env db user req
    rw [createBookingWith_eq]
    exact ⟨rfl, (createBooking_unchanged env db user req).1,
      (createBooking_unchanged env db user req).2.1⟩
  · rw [createBookingWith_eq]
    exact createBooking_eq_of_response (by decide)
  · rw [createBookingWith_eq]
    exact createBooking_eq_of_response (by decide)
  · intro db user booking serviceIds
    refine ⟨rfl, ?_⟩
    intro k hk
    unfold bookkeeping
    dsimp only
    rw [if_pos hk]

/-- Without a failure the controller with faults is updateBookingStatus. -/
theorem updateBookingStatusWith_false (env : Env) (db : Db) (user : User) (id : Id)
    (status note : Option String) :
    updateBookingStatusWith false env db user id status note =
      updateBookingStatus env db user id status note := by
  unfold updateBookingStatusWith updateBookingStatus
  rfl

/-- C29: in updateBookingStatus the counter of the provider is written before
the booking is saved: when the save of a transition into `completed` from
another status throws, the call answers the 500 error, the stored booking
keeps its old status and history, and `completedBookings` of the provider is
already one higher. -/
theorem updateBookingStatus_save_failure (env : Env) (db : Db) (user : User) (id : Id)
    (note : Option String) (b : Booking) (hfind : findBooking db id = some b)
    (hprior : b.status ≠ "completed") :
    updateBookingStatusWith true env db user id (some "completed") note =
        ({ db with providers := incCompletedBookings db.providers b.provider }, updateError) ∧
      updateError.status = 500 ∧ updateError.success = false ∧
      findBooking (updateBookingStatusWith true env db user id (some "completed") note).1 id
        = some b ∧
      (updateBookingStatusWith true env db user id (some "completed") note).1.providers =
        db.providers.map (fun p =>
          if p.id = b.provider then { p with completedBookings := p.completedBookings + 1 }
          else p) ∧
      (updateBookingStatusWith true env db user id (some "completed") note).1.bookings
        = db.bookings := by
  have heq : updateBookingStatusWith true env db user id (some "completed") note =
      ({ db with providers := incCompletedBookings db.providers b.provider }, updateError) := by
    unfold updateBookingStatusWith
    rw [if_neg (by rw [validStatus_truthy (by decide)]; decide)]
    dsimp only
    rw [hfind]
    simp [hprior, Booking.updateStatus]
  rw [heq]
  exact ⟨rfl, rfl, rfl, hfind, rfl, rfl⟩

/-- Witness of C29: the save of the confirmed sample booking throws; the booking
stays confirmed and provider 7 counts one completed booking. -/
theorem updateBookingStatus_save_failure_witness :
    (updateBookingStatusWith true sampleEnv (bookingDb "confirmed" false) sampleAdmin 100
        (some "completed") none).2.status = 500 ∧
    (updateBookingStatusWith true sampleEnv (bookingDb "confirmed" false) sampleAdmin 100
        (some "completed") none).1.bookings.map (fun b => b.status) = ["confirmed"] ∧
    (updateBookingStatusWith true sampleEnv (bookingDb "confirmed" false) sampleAdmin 100
        (some "completed") none).1.providers.map (fun p => (p.id, p.completedBookings))
      = [(7, 1), (8, 0)] := by
  have h := (updateBookingStatus_save_failure sampleEnv (bookingDb "confirmed" false)
    sampleAdmin 100 none (sampleBooking "confirmed" false) (by decide) (by decide)).1
  rw [h]
  decide

/-! ## The frame of the redaction -/

/-- C30: the redaction of a provider-facing read replaces `contactInfo` and
`client` and nothing else: the object returned by getProviderBookings and by
getBookingById is `booking.toObject()` up to these two fields, so every other
field (location, notes, pricing, status, history and the rest) is the stored
one whether `providerCanSeeContact` is true or false; a read writes nothing. -/
theorem redaction_frame :
    (∀ b : Booking,
      sanitizeBooking b =
        { b.toObject b.client with
            contactInfo := (sanitizeBooking b).contactInfo
            client := (sanitizeBooking b).client }) ∧
    (∀ b : Booking,
      { sanitizeBooking { b with providerCanSeeContact := false } with
          contactInfo := (sanitizeBooking { b with providerCanSeeContact := true }).contactInfo
          client := (sanitizeBooking { b with providerCanSeeContact := true }).client
          providerCanSeeContact := true } =
        sanitizeBooking { b with providerCanSeeContact := true }) ∧
    (∀ (db : Db) (user : User) (status : Option String) (views : List (BookingObj Id)),
      (getProviderBookings db user status).data = some views →
      ∀ v ∈ views, ∃ b ∈ db.bookings,
        v = { b.toObject b.client with contactInfo := v.contactInfo, client := v.client }) ∧
    (∀ (db : Db) (user : User) (id : Id) (b : Booking) (v : BookingObj ClientDoc),
      findBooking db id = some b → (getBookingById db user id).data = some v →
      ∃ c, populateClient db b.client = some c ∧
        v = { b.toObject c with contactInfo := v.contactInfo, client := v.client }) ∧
    (∀ db : Db, Operation.run db Operation.read = db) := by
  refine ⟨?_, ?_, ?_, ?_, fun _ => rfl⟩
  · intro b
    cases hflag : b.providerCanSeeContact <;> simp [sanitizeBooking, hflag, Booking.toObject]
  · intro b
    simp [sanitizeBooking, Booking.toObject]
  · intro db user status views hdata v hv
    unfold getProviderBookings at hdata
    split at hdata
    · simp [Response.fail] at hdata
    · rename_i pid _
      simp only [Option.some.injEq] at hdata
      subst hdata
      obtain ⟨b, hb, rfl⟩ := List.mem_map.mp hv
      refine ⟨b, (mem_providerBookings.mp hb).1, ?_⟩
      cases hflag : b.providerCanSeeContact <;> simp [sanitizeBooking, hflag, Booking.toObject]
  · intro db user id b v hfind hdata
    rw [getBookingById_found hfind] at hdata
    cases hclient : populateClient db b.client with
    | none => simp [hclient, readError, Response.fail] at hdata
    | some c =>
      cases hprov : isProviderOf db user b with
      | none => simp [hclient, hprov, readError, Response.fail] at hdata
      | some isProvider =>
        simp only [hclient, hprov] at hdata
        split at hdata
        · simp [Response.fail] at hdata
        · simp only [Option.some.injEq] at hdata
          subst hdata
          refine ⟨c, rfl, ?_⟩
          cases isProvider <;> cases hflag : b.providerCanSeeContact <;>
            simp [Booking.toObject]

/-- Witness of C30: provider 7 reads its booking whose flag is false. -/
theorem redaction_frame_witness :
    ∀ v ∈ [sanitizeBooking (sampleBooking "confirmed" false)],
      ∃ b ∈ (bookingDb "confirmed" false).bookings,
        v = { b.toObject b.client with contactInfo := v.contactInfo, client := v.client } :=
  redaction_frame.2.2.1 (bookingDb "confirmed" false) sampleProviderUser none
    [sanitizeBooking (sampleBooking "confirmed" false)] (by decide)

/-! ## The count check of createBooking -/

theorem findServiceDetails_ids (db : Db) (ids : List Id) :
    (findServiceDetails db ids).map (fun sd => sd.service.id) =
      (db.services.filter (fun s => ids.contains s.id && s.isAvailable)).map (fun s => s.id) := by
  unfold findServiceDetails
  rw [List.map_map]
  rfl

/-- With unique catalogue ids, a passed count check makes the ids of the found
services a rearrangement of the requested ids. -/
theorem found_ids_perm (db : Db) (ids : List Id)
    (hnodup : (db.services.map (fun s => s.id)).Nodup)
    (hcount : (findServiceDetails db ids).length = ids.length) :
    List.Perm ((findServiceDetails db ids).map (fun sd => sd.service.id)) ids := by
  have hnd : ((findServiceDetails db ids).map (fun sd => sd.service.id)).Nodup := by
    rw [findServiceDetails_ids]
    exact List.Nodup.sublist (List.Sublist.map _ (List.filter_sublist _)) hnodup
  have hsub : (findServiceDetails db ids).map (fun sd => sd.service.id) ⊆ ids := by
    intro i hi
    obtain ⟨sd, hsd, rfl⟩ := List.mem_map.mp hi
    exact (mem_findServiceDetails hsd).2.1
  refine (List.subperm_of_subset hnd hsub).perm_of_length_le ?_
  rw [List.length_map, hcount]

theorem servicesWithPrices_of_priceLine (sds : List PopulatedService) :
    ∀ (lines : List RequestedLine) (t : Int), (∀ s ∈ lines, priceLine sds s ≠ none) →
      servicesWithPrices sds lines t ≠ none := by
  intro lines
  induction lines with
  | nil => intro t _; simp [servicesWithPrices]
  | cons s rest ih =>
    intro t h
    unfold servicesWithPrices
    cases hs : priceLine sds s with
    | none => exact absurd hs (h s (List.mem_cons_self _ _))
    | some item =>
      dsimp only
      cases hr : servicesWithPrices sds rest (jsAdd t item.price) with
      | none => exact absurd hr (ih _ (fun x hx => h x (List.mem_cons_of_mem _ hx)))
      | some r => simp

theorem priceLine_canonical {sds : List PopulatedService} {s : RequestedLine}
    (h : priceLine sds s ≠ none) : s.canonical = true := by
  unfold priceLine at h
  split at h
  · exact absurd rfl h
  · rename_i sd hfind
    have := List.find?_some hfind
    simp only [Bool.and_eq_true] at this
    exact this.2

theorem servicesWithPrices_of_miss (sds : List PopulatedService) :
    ∀ (lines : List RequestedLine) (t : Int), (∃ s ∈ lines, priceLine sds s = none) →
      servicesWithPrices sds lines t = none := by
  intro lines
  induction lines with
  | nil => intro t h; obtain ⟨s, hs, _⟩ := h; simp at hs
  | cons s rest ih =>
    intro t h
    unfold servicesWithPrices
    cases hs : priceLine sds s with
    | none => rfl
    | some item =>
      dsimp only
      obtain ⟨x, hx, hnone⟩ := h
      rcases List.mem_cons.mp hx with rfl | hx
      · rw [hs] at hnone
        cases hnone
      · rw [ih _ ⟨x, hx, hnone⟩]

/-- C27: with unique catalogue ids, a passed count check makes the requested
ids pairwise distinct and each of them the id of exactly one found service, but
the lookup of line 84 compares the requested string with `_id.toString()`: it
finds the service of every line whose id is spelled as `toString()` spells it,
and it misses (and the pricing step throws) for every line whose id is spelled
otherwise, although the query of line 47 found that service. -/
theorem createBooking_lines_resolve (db : Db) (lines : List RequestedLine)
    (hnodup : (db.services.map (fun s => s.id)).Nodup)
    (hcount : (findServiceDetails db (lines.map (fun s => s.service))).length = lines.length) :
    (lines.map (fun s => s.service)).Nodup ∧
    (∀ s ∈ lines, ∃ sd, (sd ∈ findServiceDetails db (lines.map (fun s => s.service)) ∧
        sd.service.id = s.service) ∧
      ∀ sd', sd' ∈ findServiceDetails db (lines.map (fun s => s.service)) ∧
        sd'.service.id = s.service → sd' = sd) ∧
    (∀ s ∈ lines, s.canonical = true →
      priceLine (findServiceDetails db (lines.map (fun s => s.service))) s ≠ none) ∧
    ((∀ s ∈ lines, s.canonical = true) →
      ∀ t, servicesWithPrices (findServiceDetails db (lines.map (fun s => s.service))) lines t
        ≠ none) ∧
    (∀ s ∈ lines, s.canonical = false →
      priceLine (findServiceDetails db (lines.map (fun s => s.service))) s = none ∧
      ∀ t, servicesWithPrices (findServiceDetails db (lines.map (fun s => s.service))) lines t
        = none) := by
  have hcount' : (findServiceDetails db (lines.map (fun s => s.service))).length =
      (lines.map (fun s => s.service)).length := by rw [hcount, List.length_map]
  have hperm := found_ids_perm db (lines.map (fun s => s.service)) hnodup hcount'
  have hnd : ((findServiceDetails db (lines.map (fun s => s.service))).map
      (fun sd => sd.service.id)).Nodup := by
    rw [findServiceDetails_ids]
    exact List.Nodup.sublist (List.Sublist.map _ (List.filter_sublist _)) hnodup
  have hex : ∀ s ∈ lines, ∃ sd ∈ findServiceDetails db (lines.map (fun s => s.service)),
      sd.service.id = s.service := by
    intro s hs
    have hmem : s.service ∈ (findServiceDetails db (lines.map (fun s => s.service))).map
        (fun sd => sd.service.id) :=
      hperm.symm.subset (List.mem_map.mpr ⟨s, hs, rfl⟩)
    obtain ⟨sd, hsd, hid⟩ := List.mem_map.mp hmem
    exact ⟨sd, hsd, hid⟩
  have hprice : ∀ s ∈ lines, s.canonical = true →
      priceLine (findServiceDetails db (lines.map (fun s => s.service))) s ≠ none := by
    intro s hs hcan
    obtain ⟨sd, hsd, hid⟩ := hex s hs
    unfold priceLine
    cases hfind : (findServiceDetails db (lines.map (fun s => s.service))).find?
        (fun sd => sd.service.id == s.service && s.canonical) with
    | none =>
      have := List.find?_eq_none.mp hfind sd hsd
      simp [hid, hcan] at this
    | some x => simp
  have hmiss : ∀ s ∈ lines, s.canonical = false →
      priceLine (findServiceDetails db (lines.map (fun s => s.service))) s = none := by
    intro s _ hcan
    by_contra hne
    rw [priceLine_canonical hne] at hcan
    cases hcan
  refine ⟨hperm.nodup_iff.mp hnd, ?_, hprice, ?_, ?_⟩
  · intro s hs
    obtain ⟨sd, hsd, hid⟩ := hex s hs
    refine ⟨sd, ⟨hsd, hid⟩, ?_⟩
    rintro sd' ⟨hsd', hid'⟩
    exact List.inj_on_of_nodup_map hnd hsd' hsd (hid'.trans hid.symm)
  · intro hall t
    exact servicesWithPrices_of_priceLine _ lines t (fun s hs => hprice s hs (hall s hs))
  · intro s hs hcan
    exact ⟨hmiss s hs hcan, fun t => servicesWithPrices_of_miss _ lines t ⟨s, hs, hmiss s hs hcan⟩⟩

/-- Witness of C27: service 1 requested under another spelling of its id
passes the count check and is missed by the lookup of the pricing step. -/
theorem createBooking_lines_resolve_witness :
    (findServiceDetails sampleDb ([upperCaseLine].map (fun s => s.service))).length =
      [upperCaseLine].length ∧
    priceLine (findServiceDetails sampleDb ([upperCaseLine].map (fun s => s.service)))
      upperCaseLine = none ∧
    (∀ t, servicesWithPrices (findServiceDetails sampleDb ([upperCaseLine].map (fun s => s.service)))
      [upperCaseLine] t = none) :=
  ⟨by decide,
   (createBooking_lines_resolve sampleDb [upperCaseLine] (by decide) (by decide)).2.2.2.2
     upperCaseLine (by decide) rfl⟩

/-- C28 (as stated, refuted): a request that names service 1 twice and carries
no time is answered by the date-and-time 400, not by the 404. -/
theorem createBooking_duplicate_lines_counterexample :
    (sampleDb.services.map (fun s => s.id)).Nodup ∧
      ¬ ([plainLine 1, plainLine 1].map (fun s => s.service)).Nodup ∧
      (createBooking sampleEnv sampleDb sampleUser
        { sampleRequest [plainLine 1, plainLine 1] with scheduledTime := none }).2 =
        Response.fail 400 "Veuillez fournir une date et une heure de rendez-vous" := by
  decide

/-- C28 (amended): with unique catalogue ids, a request in which a service id
appears in two or more lines is always rejected and persists nothing; the
rejection is the 404 of the count check whenever the request passes the
schedule and location checks that come before it. -/
theorem createBooking_duplicate_lines (env : Env) (db : Db) (user : User)
    (req : BookingRequest) (lines : List RequestedLine)
    (hnodup : (db.services.map (fun s => s.id)).Nodup)
    (hreq : req.services = some lines)
    (hdup : ¬ (lines.map (fun s => s.service)).Nodup) :
    (createBooking env db user req).2.status ≠ 201 ∧
    (createBooking env db user req).2.success = false ∧
    (createBooking env db user req).2.data = none ∧
    (createBooking env db user req).1 = db ∧
    (truthyStr req.scheduledDate = true → truthyStr req.scheduledTime = true →
      truthyStr (req.serviceLocation.bind (fun l => l.type)) = true →
      createBooking env db user req =
        (db, Response.fail 404 "Un ou plusieurs services sont introuvables ou indisponibles")) := by
  have hcount : (findServiceDetails db (lines.map (fun s => s.service))).length
      ≠ lines.length := by
    intro hc
    have hc' : (findServiceDetails db (lines.map (fun s => s.service))).length =
        (lines.map (fun s => s.service)).length := by rw [hc, List.length_map]
    have hperm := found_ids_perm db (lines.map (fun s => s.service)) hnodup hc'
    have hnd : ((findServiceDetails db (lines.map (fun s => s.service))).map
        (fun sd => sd.service.id)).Nodup := by
      rw [findServiceDetails_ids]
      exact List.Nodup.sublist (List.Sublist.map _ (List.filter_sublist _)) hnodup
    exact hdup (hperm.nodup_iff.mp hnd)
  have hrej : (createBooking env db user req).2.status ≠ 201 :=
    (createBooking_unchanged env db user req).2.1
  obtain ⟨hdb, hsucc, hdata⟩ := createBooking_rejected env db user req hrej
  refine ⟨hrej, hsucc, hdata, hdb, ?_⟩
  intro hdate htime hloc
  unfold createBooking
  split
  · rename_i hs; rw [hreq] at hs; cases hs
  · rename_i hs
    rw [hreq] at hs
    cases hs
    exact absurd List.nodup_nil hdup
  · rename_i s0 ss hs
    rw [hreq] at hs
    cases hs
    dsimp only
    rw [if_neg (by simp [hdate, htime]), if_neg (by simp [hloc]), if_pos hcount]

/-- Witness of C28 (amended): service 1 requested twice. -/
theorem createBooking_duplicate_lines_witness :
    createBooking sampleEnv sampleDb sampleUser (sampleRequest [plainLine 1, plainLine 1]) =
      (sampleDb,
        Response.fail 404 "Un ou plusieurs services sont introuvables ou indisponibles") :=
  (createBooking_duplicate_lines sampleEnv sampleDb sampleUser
    (sampleRequest [plainLine 1, plainLine 1]) [plainLine 1, plainLine 1] (by decide) rfl
    (by decide)).2.2.2.2 (by decide) (by decide) (by decide)

/-- C26: on the request for two units of service 1 with the option `kit` and for
service 2, createBooking adds the option price as sent, whatever the catalogue
holds: with the option at 250 it computes serviceTotal 4250 and with the option
at 9000 it computes 13000, which is 4250 + (9000 - 250).  Neither request is
accepted: `Booking.create` throws on the document, which carries no
`bookingNumber`, and both are answered by the 500 of the `catch` block. -/
theorem createBooking_option_price_not_stored :
    (servicesWithPrices (findServiceDetails sampleDb [1, 2]) [kitLine, plainLine 2] 0).map
      (fun r => r.2) = some 4250 ∧
    (servicesWithPrices (findServiceDetails sampleDb [1, 2]) [dearKitLine, plainLine 2] 0).map
      (fun r => r.2) = some 13000 ∧
    (13000 : Int) = 4250 + (9000 - 250) ∧
    (sampleDb.services.map (fun s => s.additionalOptions)) = [[], [], [], []] ∧
    createBooking sampleEnv sampleDb sampleUser (sampleRequest [kitLine, plainLine 2]) =
      (sampleDb, createError) ∧
    createBooking sampleEnv sampleDb sampleUser (sampleRequest [dearKitLine, plainLine 2]) =
      (sampleDb, createError) ∧
    createError.status = 500 :=
  ⟨by decide, by decide, by decide, by decide, createBooking_eq_of_response (by decide),
   createBooking_eq_of_response (by decide), rfl⟩

end SandraList
